import Mathlib

/-!
Verification of the bit-banged I2C master driver
(`src/freertos_drivers/common/BitBangI2C.hxx`).

The driver is embedded shallowly:

* the GPIO lines are abstracted as a trace of operations (`GpioOp`) emitted
  by every tick, plus an input record (`TickIn`) holding the levels the two
  `read()` calls would return during that tick (`true` = high / `SET`,
  `false` = low / `CLR`);
* the four low-level sub-state machines (`state_start`, `state_stop`,
  `state_tx`, `state_rx`) and the high-level machine (`tick`, embedding
  `tick_interrupt`) are translated function by function from the source;
* `steps` iterates ticks with an environment `env : Nat → TickIn`
  describing what the slave puts on the lines; once a tick signals
  completion (the `disableTick_(); sem_.post_from_isr()` exit path) the
  run is frozen;
* `transfer_arm` embeds the task-level part of `transfer()` after the
  initial `while (stop_) sem_.wait();` loop has been passed.

The C union that overlays the four sub-state enumerations is modelled as a
sum type `Sub`; reading a variant other than the active one is undefined
behaviour in the source, and the corresponding mismatched cases of `tick`
are modelled as no-ops (they are unreachable from any armed transfer).
-/

namespace BitBang

/-- A GPIO transition performed by the driver.  `sdaSet`/`sclSet` embed
`gpio_set` (release the line, pulled high externally); `sdaClr`/`sclClr`
embed `gpio_clr` (drive the line low). -/
inductive GpioOp where
  | sdaSet
  | sdaClr
  | sclSet
  | sclClr
deriving DecidableEq, Repr

/-- Levels returned by `read()` on the two lines during one tick:
`true` = `Gpio::Value::SET` (high), `false` = `Gpio::Value::CLR` (low). -/
structure TickIn where
  scl : Bool
  sda : Bool
deriving DecidableEq, Repr

/-- High level I2C states (`enum class State`). -/
inductive HState where
  | START
  | ADDRESS
  | DATA_TX
  | DATA_RX
  | STOP
deriving DecidableEq, Repr

/-- Low level I2C start states (`enum class StateStart`). -/
inductive StateStart where
  | SDA_SET
  | SCL_SET
  | SDA_CLR
deriving DecidableEq, Repr

/-- Low level I2C stop states (`enum class StateStop`). -/
inductive StateStop where
  | SDA_CLR
  | SCL_SET
  | SDA_SET
deriving DecidableEq, Repr

/-- Low level I2C data TX states (`enum class StateTx`), in declaration
order of the C enum (`FIRST = DATA_7_SCL_CLR`, `LAST = ACK_SCL_CLR`). -/
inductive StateTx where
  | DATA_7_SCL_CLR
  | DATA_7_SCL_SET
  | DATA_6_SCL_CLR
  | DATA_6_SCL_SET
  | DATA_5_SCL_CLR
  | DATA_5_SCL_SET
  | DATA_4_SCL_CLR
  | DATA_4_SCL_SET
  | DATA_3_SCL_CLR
  | DATA_3_SCL_SET
  | DATA_2_SCL_CLR
  | DATA_2_SCL_SET
  | DATA_1_SCL_CLR
  | DATA_1_SCL_SET
  | DATA_0_SCL_CLR
  | DATA_0_SCL_SET
  | ACK_SDA_SET_SCL_CLR
  | ACK_SCL_SET
  | ACK_SCL_CLR
deriving DecidableEq, Repr

/-- Low level I2C data RX states (`enum class StateRx`), in declaration
order of the C enum (`FIRST = DATA_7_SCL_SET`, `LAST = ACK_SCL_CLR`). -/
inductive StateRx where
  | DATA_7_SCL_SET
  | DATA_7_SCL_CLR
  | DATA_6_SCL_SET
  | DATA_6_SCL_CLR
  | DATA_5_SCL_SET
  | DATA_5_SCL_CLR
  | DATA_4_SCL_SET
  | DATA_4_SCL_CLR
  | DATA_3_SCL_SET
  | DATA_3_SCL_CLR
  | DATA_2_SCL_SET
  | DATA_2_SCL_CLR
  | DATA_1_SCL_SET
  | DATA_1_SCL_CLR
  | DATA_0_SCL_SET
  | DATA_0_SCL_CLR
  | ACK_SDA_SCL_SET
  | ACK_SCL_CLR
deriving DecidableEq, Repr

/-- Numeric value of a `StateTx` in the C enum (used by the bit-mask
computation in `state_tx`). -/
def StateTx.val : StateTx → Nat
  | .DATA_7_SCL_CLR => 0
  | .DATA_7_SCL_SET => 1
  | .DATA_6_SCL_CLR => 2
  | .DATA_6_SCL_SET => 3
  | .DATA_5_SCL_CLR => 4
  | .DATA_5_SCL_SET => 5
  | .DATA_4_SCL_CLR => 6
  | .DATA_4_SCL_SET => 7
  | .DATA_3_SCL_CLR => 8
  | .DATA_3_SCL_SET => 9
  | .DATA_2_SCL_CLR => 10
  | .DATA_2_SCL_SET => 11
  | .DATA_1_SCL_CLR => 12
  | .DATA_1_SCL_SET => 13
  | .DATA_0_SCL_CLR => 14
  | .DATA_0_SCL_SET => 15
  | .ACK_SDA_SET_SCL_CLR => 16
  | .ACK_SCL_SET => 17
  | .ACK_SCL_CLR => 18

/-- The overloaded pre-increment `operator++(StateStart&)`: successor in
declaration order, clamped at `LAST`. -/
def StateStart.inc : StateStart → StateStart
  | .SDA_SET => .SCL_SET
  | .SCL_SET => .SDA_CLR
  | .SDA_CLR => .SDA_CLR

/-- The overloaded pre-increment `operator++(StateStop&)`: successor in
declaration order, clamped at `LAST`. -/
def StateStop.inc : StateStop → StateStop
  | .SDA_CLR => .SCL_SET
  | .SCL_SET => .SDA_SET
  | .SDA_SET => .SDA_SET

/-- The overloaded pre-increment `operator++(StateTx&)`: successor in
declaration order, clamped at `LAST`. -/
def StateTx.inc : StateTx → StateTx
  | .DATA_7_SCL_CLR => .DATA_7_SCL_SET
  | .DATA_7_SCL_SET => .DATA_6_SCL_CLR
  | .DATA_6_SCL_CLR => .DATA_6_SCL_SET
  | .DATA_6_SCL_SET => .DATA_5_SCL_CLR
  | .DATA_5_SCL_CLR => .DATA_5_SCL_SET
  | .DATA_5_SCL_SET => .DATA_4_SCL_CLR
  | .DATA_4_SCL_CLR => .DATA_4_SCL_SET
  | .DATA_4_SCL_SET => .DATA_3_SCL_CLR
  | .DATA_3_SCL_CLR => .DATA_3_SCL_SET
  | .DATA_3_SCL_SET => .DATA_2_SCL_CLR
  | .DATA_2_SCL_CLR => .DATA_2_SCL_SET
  | .DATA_2_SCL_SET => .DATA_1_SCL_CLR
  | .DATA_1_SCL_CLR => .DATA_1_SCL_SET
  | .DATA_1_SCL_SET => .DATA_0_SCL_CLR
  | .DATA_0_SCL_CLR => .DATA_0_SCL_SET
  | .DATA_0_SCL_SET => .ACK_SDA_SET_SCL_CLR
  | .ACK_SDA_SET_SCL_CLR => .ACK_SCL_SET
  | .ACK_SCL_SET => .ACK_SCL_CLR
  | .ACK_SCL_CLR => .ACK_SCL_CLR

/-- The overloaded pre-increment `operator++(StateRx&)`: successor in
declaration order, clamped at `LAST`. -/
def StateRx.inc : StateRx → StateRx
  | .DATA_7_SCL_SET => .DATA_7_SCL_CLR
  | .DATA_7_SCL_CLR => .DATA_6_SCL_SET
  | .DATA_6_SCL_SET => .DATA_6_SCL_CLR
  | .DATA_6_SCL_CLR => .DATA_5_SCL_SET
  | .DATA_5_SCL_SET => .DATA_5_SCL_CLR
  | .DATA_5_SCL_CLR => .DATA_4_SCL_SET
  | .DATA_4_SCL_SET => .DATA_4_SCL_CLR
  | .DATA_4_SCL_CLR => .DATA_3_SCL_SET
  | .DATA_3_SCL_SET => .DATA_3_SCL_CLR
  | .DATA_3_SCL_CLR => .DATA_2_SCL_SET
  | .DATA_2_SCL_SET => .DATA_2_SCL_CLR
  | .DATA_2_SCL_CLR => .DATA_1_SCL_SET
  | .DATA_1_SCL_SET => .DATA_1_SCL_CLR
  | .DATA_1_SCL_CLR => .DATA_0_SCL_SET
  | .DATA_0_SCL_SET => .DATA_0_SCL_CLR
  | .DATA_0_SCL_CLR => .ACK_SDA_SCL_SET
  | .ACK_SDA_SCL_SET => .ACK_SCL_CLR
  | .ACK_SCL_CLR => .ACK_SCL_CLR

/-- An I2C message (`struct i2c_msg`): 7-bit address, direction flag
(`read` embeds the `I2C_M_RD` bit of `flags`), data buffer and length.
As in the C struct, `len` is a separate field from the buffer storage. -/
structure Msg where
  addr : Nat
  read : Bool
  buf : List Nat
  len : Nat
deriving DecidableEq, Repr

/-- The anonymous union of the four sub-state enumerations.  Exactly one
variant is live at a time in the source; we model it as a sum. -/
inductive Sub where
  | start (st : StateStart)
  | stp (st : StateStop)
  | tx (st : StateTx)
  | rx (st : StateRx)
deriving DecidableEq, Repr

/-- Driver state: the member variables of `BitBangI2C` that the state
machine reads and writes (`msg_`, `count_`, `state_`, the sub-state union,
`stop_`, `clockStretchActive_`).  `msg_` is a nullable pointer in the
source, hence `Option`. -/
structure DrvState where
  msg_ : Option Msg
  count_ : Int
  state_ : HState
  sub : Sub
  stop_ : Bool
  clockStretchActive_ : Bool
deriving DecidableEq, Repr

/-- `errno` code `EIO` (newlib value 5): `count_ = -EIO` on a NACK. -/
def eio : Nat := 5

/-- `errno` code `EINVAL` (newlib value 22): returned for a zero-length
message. -/
def einval : Nat := 22

/-- Result of `state_start` for one tick. -/
structure StartRes where
  st : StateStart
  ops : List GpioOp
  done : Bool
deriving DecidableEq, Repr

/-- `BitBangI2C::state_start()`: one step of the start-condition
sub-machine.  Each case performs its GPIO operation then pre-increments
the sub-state (the increment clamps at `LAST`). -/
def state_start : StateStart → StartRes
  | .SDA_SET => ⟨StateStart.SDA_SET.inc, [.sdaSet], false⟩
  | .SCL_SET => ⟨StateStart.SCL_SET.inc, [.sclSet], false⟩
  | .SDA_CLR => ⟨StateStart.SDA_CLR.inc, [.sdaClr], true⟩

/-- Result of `state_stop` for one tick.  When `done` is true the source
also assigns `stop_ = false`; `tick` applies that assignment. -/
structure StopRes where
  st : StateStop
  ops : List GpioOp
  done : Bool
deriving DecidableEq, Repr

/-- `BitBangI2C::state_stop()`: one step of the stop-condition
sub-machine.  The final case performs `gpio_set(sda_)`, clears `stop_`
and returns true without incrementing the sub-state. -/
def state_stop : StateStop → StopRes
  | .SDA_CLR => ⟨StateStop.SDA_CLR.inc, [.sdaClr], false⟩
  | .SCL_SET => ⟨StateStop.SCL_SET.inc, [.sclSet], false⟩
  | .SDA_SET => ⟨.SDA_SET, [.sdaSet], true⟩

/-- The mask `0x80 >> ((static_cast<int>(stateTx_) -
static_cast<int>(StateTx::DATA_7_SCL_CLR)) >> 1)` selecting the data bit
for a `*_SCL_CLR` transmit state. -/
def txDataMask (st : StateTx) : Nat := 128 >>> (st.val >>> 1)

/-- Result of `state_tx` for one tick.  When `done ∧ err` the source
assigns `count_ = -EIO`; `tick` applies that assignment. -/
structure TxRes where
  st : StateTx
  cs : Bool
  ops : List GpioOp
  done : Bool
  err : Bool
deriving DecidableEq, Repr

/-- `BitBangI2C::state_tx(uint8_t data)`: one step of the byte-transmit
sub-machine.  In a `*_SCL_CLR` data state the clock is dropped and SDA is
driven to the selected bit of `data`; in a `*_SCL_SET` state the clock is
raised; the three ACK states release SDA, raise the clock and finally
(after absorbing clock stretching) sample SDA, where a high level is a
NACK (`err`). -/
def state_tx (data : Nat) (st : StateTx) (cs : Bool) (inp : TickIn) : TxRes :=
  match st with
  | .DATA_7_SCL_CLR | .DATA_6_SCL_CLR | .DATA_5_SCL_CLR | .DATA_4_SCL_CLR
  | .DATA_3_SCL_CLR | .DATA_2_SCL_CLR | .DATA_1_SCL_CLR | .DATA_0_SCL_CLR =>
      -- gpio_clr(scl_); then drive SDA to (data & mask); then ++stateTx_
      let sdaOp := if data &&& txDataMask st ≠ 0 then GpioOp.sdaSet else GpioOp.sdaClr
      ⟨st.inc, cs, [.sclClr, sdaOp], false, false⟩
  | .DATA_7_SCL_SET | .DATA_6_SCL_SET | .DATA_5_SCL_SET | .DATA_4_SCL_SET
  | .DATA_3_SCL_SET | .DATA_2_SCL_SET | .DATA_1_SCL_SET | .DATA_0_SCL_SET =>
      ⟨st.inc, cs, [.sclSet], false, false⟩
  | .ACK_SDA_SET_SCL_CLR =>
      ⟨StateTx.ACK_SDA_SET_SCL_CLR.inc, cs, [.sclClr, .sdaSet], false, false⟩
  | .ACK_SCL_SET =>
      ⟨StateTx.ACK_SCL_SET.inc, cs, [.sclSet], false, false⟩
  | .ACK_SCL_CLR =>
      if inp.scl = false then
        -- scl_->read() == CLR: clock stretching, repeat this state
        ⟨.ACK_SCL_CLR, true, [], false, false⟩
      else if cs then
        -- one extra settle tick after the stretch released
        ⟨.ACK_SCL_CLR, false, [], false, false⟩
      else
        -- ack = (sda_->read() == CLR); gpio_clr(scl_); error iff NACK
        ⟨.ACK_SCL_CLR, cs, [.sclClr], true, inp.sda⟩

/-- `*data <<= 1; if (sda read SET) *data |= 0x01;` on a `uint8_t`. -/
def shiftIn (d : Nat) (sda : Bool) : Nat :=
  let d1 := (d <<< 1) % 256
  if sda then d1 ||| 1 else d1

/-- Result of `state_rx` for one tick.  `d` is the value of `*data` after
the tick and `wrote` records whether the tick stored through the pointer. -/
structure RxRes where
  st : StateRx
  cs : Bool
  ops : List GpioOp
  done : Bool
  d : Nat
  wrote : Bool
deriving DecidableEq, Repr

/-- `BitBangI2C::state_rx(uint8_t *data, bool nack)`: one step of the
byte-receive sub-machine.  `*_SCL_SET` states raise the clock (the first
one also releases SDA); `*_SCL_CLR` states absorb clock stretching, then
sample SDA into `*data` (MSB first), drop the clock, and on the last data
bit drive the ACK (SDA low) unless `nack`; the two ACK states clock the
acknowledge slot and finish by releasing SDA. -/
def state_rx (nack : Bool) (st : StateRx) (cs : Bool) (inp : TickIn) (d : Nat) :
    RxRes :=
  match st with
  | .DATA_7_SCL_SET =>
      -- gpio_set(sda_) then fall through to gpio_set(scl_)
      ⟨StateRx.DATA_7_SCL_SET.inc, cs, [.sdaSet, .sclSet], false, d, false⟩
  | .DATA_6_SCL_SET | .DATA_5_SCL_SET | .DATA_4_SCL_SET | .DATA_3_SCL_SET
  | .DATA_2_SCL_SET | .DATA_1_SCL_SET | .DATA_0_SCL_SET =>
      ⟨st.inc, cs, [.sclSet], false, d, false⟩
  | .DATA_7_SCL_CLR | .DATA_6_SCL_CLR | .DATA_5_SCL_CLR | .DATA_4_SCL_CLR
  | .DATA_3_SCL_CLR | .DATA_2_SCL_CLR | .DATA_1_SCL_CLR | .DATA_0_SCL_CLR =>
      if inp.scl = false then
        ⟨st, true, [], false, d, false⟩
      else if cs then
        ⟨st, false, [], false, d, false⟩
      else
        let d2 := shiftIn d inp.sda
        let ackOps :=
          if st = StateRx.DATA_0_SCL_CLR ∧ nack = false then [GpioOp.sdaClr]
          else ([] : List GpioOp)
        ⟨st.inc, cs, [.sclClr] ++ ackOps, false, d2, true⟩
  | .ACK_SDA_SCL_SET =>
      ⟨StateRx.ACK_SDA_SCL_SET.inc, cs, [.sclSet], false, d, false⟩
  | .ACK_SCL_CLR =>
      if inp.scl = false then
        ⟨.ACK_SCL_CLR, true, [], false, d, false⟩
      else if cs then
        ⟨.ACK_SCL_CLR, false, [], false, d, false⟩
      else
        ⟨.ACK_SCL_CLR, cs, [.sclClr, .sdaSet], true, d, false⟩

/-- The address byte computed in the `ADDRESS` case of `tick_interrupt`:
`uint8_t address = msg_->addr << 1; if (msg_->flags & I2C_M_RD) address |= 0x1;`
(the store into a `uint8_t` truncates modulo 256). -/
def addressByte (m : Msg) : Nat :=
  let a := (m.addr <<< 1) % 256
  if m.read then a ||| 1 else a

/-- `BitBangI2C::tick_interrupt()`: one periodic tick.  Returns the new
driver state, the GPIO operations performed, and whether this tick took
the exit path (`disableTick_(); sem_.post_from_isr(...)`).

Reading a union variant other than the live one, or dereferencing a null
`msg_`, is undefined behaviour in the source; those cases are modelled as
no-ops and are unreachable from an armed transfer. -/
def tick (inp : TickIn) (s : DrvState) : DrvState × List GpioOp × Bool :=
  match s.state_, s.sub with
  | .START, .start st =>
      let r := state_start st
      if r.done then
        ({s with state_ := .ADDRESS, sub := .tx .DATA_7_SCL_CLR}, r.ops, false)
      else
        ({s with sub := .start r.st}, r.ops, false)
  | .ADDRESS, .tx st =>
      match s.msg_ with
      | none => (s, [], false)
      | some m =>
          let r := state_tx (addressByte m) st s.clockStretchActive_ inp
          let cnt : Int := if r.err then -(eio : Int) else s.count_
          if r.done then
            if cnt < 0 then
              ({s with
                count_ := cnt
                state_ := .STOP
                sub := .stp .SDA_CLR
                clockStretchActive_ := r.cs}, r.ops, false)
            else if m.read then
              ({s with
                count_ := cnt
                state_ := .DATA_RX
                sub := .rx .DATA_7_SCL_SET
                clockStretchActive_ := r.cs}, r.ops, false)
            else
              ({s with
                count_ := cnt
                state_ := .DATA_TX
                sub := .tx .DATA_7_SCL_CLR
                clockStretchActive_ := r.cs}, r.ops, false)
          else
            ({s with
              count_ := cnt
              sub := .tx r.st
              clockStretchActive_ := r.cs}, r.ops, false)
  | .DATA_TX, .tx st =>
      match s.msg_ with
      | none => (s, [], false)
      | some m =>
          let r := state_tx (m.buf.getD s.count_.toNat 0) st
              s.clockStretchActive_ inp
          let cnt : Int := if r.err then -(eio : Int) else s.count_
          if r.done then
            if cnt < 0 then
              ({s with
                count_ := cnt
                state_ := .STOP
                sub := .stp .SDA_CLR
                clockStretchActive_ := r.cs}, r.ops, false)
            else if cnt + 1 ≥ (m.len : Int) then
              if s.stop_ then
                ({s with
                  count_ := cnt + 1
                  state_ := .STOP
                  sub := .stp .SDA_CLR
                  clockStretchActive_ := r.cs}, r.ops, false)
              else
                ({s with
                  count_ := cnt + 1
                  sub := .tx r.st
                  clockStretchActive_ := r.cs}, r.ops, true)
            else
              ({s with
                count_ := cnt + 1
                sub := .tx .DATA_7_SCL_CLR
                clockStretchActive_ := r.cs}, r.ops, false)
          else
            ({s with
              count_ := cnt
              sub := .tx r.st
              clockStretchActive_ := r.cs}, r.ops, false)
  | .DATA_RX, .rx st =>
      match s.msg_ with
      | none => (s, [], false)
      | some m =>
          let r := state_rx (decide (s.count_ + 1 ≥ (m.len : Int))) st
              s.clockStretchActive_ inp (m.buf.getD s.count_.toNat 0)
          let m' := if r.wrote then
              {m with buf := m.buf.set s.count_.toNat r.d} else m
          if r.done then
            if s.count_ < 0 then
              -- error exit: terminal completion without a stop sequence
              ({s with
                msg_ := some m'
                sub := .rx r.st
                clockStretchActive_ := r.cs}, r.ops, true)
            else if s.count_ + 1 ≥ (m.len : Int) then
              if s.stop_ then
                ({s with
                  msg_ := some m'
                  count_ := s.count_ + 1
                  state_ := .STOP
                  sub := .stp .SDA_CLR
                  clockStretchActive_ := r.cs}, r.ops, false)
              else
                ({s with
                  msg_ := some m'
                  count_ := s.count_ + 1
                  sub := .rx r.st
                  clockStretchActive_ := r.cs}, r.ops, true)
            else
              ({s with
                msg_ := some m'
                count_ := s.count_ + 1
                sub := .rx .DATA_7_SCL_SET
                clockStretchActive_ := r.cs}, r.ops, false)
          else
            ({s with
              msg_ := some m'
              sub := .rx r.st
              clockStretchActive_ := r.cs}, r.ops, false)
  | .STOP, .stp st =>
      let r := state_stop st
      if r.done then
        ({s with sub := .stp r.st, stop_ := false}, r.ops, true)
      else
        ({s with sub := .stp r.st}, r.ops, false)
  | _, _ => (s, [], false)

/-- Shift an environment forward by `k` ticks. -/
def shiftEnv (env : Nat → TickIn) (k : Nat) : Nat → TickIn :=
  fun i => env (i + k)

/-- Run `tick` for up to `n` ticks with environment `env` (tick `i` sees
inputs `env i`), accumulating the GPIO trace.  The run freezes after the
first tick that takes the exit path, matching `disableTick_()`.  The final
Boolean is true iff the run has exited. -/
def steps (env : Nat → TickIn) : Nat → DrvState → DrvState × List GpioOp × Bool
  | 0, s => (s, [], false)
  | n + 1, s =>
      let t := tick (env 0) s
      if t.2.2 then t
      else
        let q := steps (shiftEnv env 1) n t.1
        (q.1, t.2.1 ++ q.2.1, q.2.2)

/-- State of the driver right after `transfer()` installed a message and
enabled ticking: `msg_ = msg; count_ = 0; stop_ = stop; state_ = START;
stateStart_ = FIRST` (the constructor leaves `clockStretchActive_` false
and every sub-machine resets it before finishing). -/
def armedState (m : Msg) (stop : Bool) : DrvState :=
  ⟨some m, 0, .START, .start .SDA_SET, stop, false⟩

/-- Outcome of the non-blocking part of `transfer()`. -/
inductive ArmResult where
  | nullDeref
  | inval
  | armed (s : DrvState)
deriving DecidableEq, Repr

/-- The task-level logic of `BitBangI2C::transfer(msg, stop)` after the
initial `while (stop_) sem_.wait();` loop (so `s.stop_ = false` is the
intended precondition).  NOTE: the source tests `msg_->len == 0` — the
length of the *previously installed* message (`msg_`), not of the new
`msg` argument; if `msg_` is still null this dereferences a null pointer
(`nullDeref`). -/
def transfer_arm (msg : Msg) (stop : Bool) (s : DrvState) : ArmResult :=
  match s.msg_ with
  | none => .nullDeref
  | some prev =>
      if prev.len = 0 then .inval
      else .armed {s with
        msg_ := some msg
        count_ := 0
        stop_ := stop
        state_ := .START
        sub := .start .SDA_SET}

end BitBang

namespace BitBang

/-! ### Basic properties of the runner -/

theorem shiftEnv_zero (env : Nat → TickIn) : shiftEnv env 0 = env :=
  funext fun i => by simp [shiftEnv]

theorem shiftEnv_shiftEnv (env : Nat → TickIn) (a b : Nat) :
    shiftEnv (shiftEnv env a) b = shiftEnv env (b + a) :=
  funext fun i => by simp [shiftEnv, Nat.add_assoc]

theorem steps_zero (env : Nat → TickIn) (s : DrvState) :
    steps env 0 s = (s, [], false) := rfl

theorem steps_one (env : Nat → TickIn) (s : DrvState) :
    steps env 1 s = tick (env 0) s := by
  rcases ht : tick (env 0) s with ⟨s', ops, ex⟩
  show (let t := tick (env 0) s;
        if t.2.2 then t
        else
          let q := steps (shiftEnv env 1) 0 t.1
          (q.1, t.2.1 ++ q.2.1, q.2.2)) = _
  rw [ht]
  cases ex <;> simp [steps_zero]

theorem steps_add (env : Nat → TickIn) (m n : Nat) (s : DrvState) :
    steps env (m + n) s =
      (if (steps env m s).2.2 then steps env m s
       else
         ((steps (shiftEnv env m) n (steps env m s).1).1,
          (steps env m s).2.1 ++ (steps (shiftEnv env m) n (steps env m s).1).2.1,
          (steps (shiftEnv env m) n (steps env m s).1).2.2)) := by
  induction m generalizing env s with
  | zero =>
      simp [steps_zero, shiftEnv_zero]
  | succ m ih =>
      have hmn : m + 1 + n = (m + n) + 1 := by omega
      by_cases h : (tick (env 0) s).2.2
      · have h1 : steps env (m + 1 + n) s = tick (env 0) s := by
          rw [hmn]
          show (let t := tick (env 0) s;
                if t.2.2 then t
                else
                  let q := steps (shiftEnv env 1) (m + n) t.1
                  (q.1, t.2.1 ++ q.2.1, q.2.2)) = _
          simp [h]
        have h2 : steps env (m + 1) s = tick (env 0) s := by
          show (let t := tick (env 0) s;
                if t.2.2 then t
                else
                  let q := steps (shiftEnv env 1) m t.1
                  (q.1, t.2.1 ++ q.2.1, q.2.2)) = _
          simp [h]
        rw [h1, h2, if_pos h]
      · have h1 : steps env (m + 1 + n) s =
            ((steps (shiftEnv env 1) (m + n) (tick (env 0) s).1).1,
             (tick (env 0) s).2.1 ++
               (steps (shiftEnv env 1) (m + n) (tick (env 0) s).1).2.1,
             (steps (shiftEnv env 1) (m + n) (tick (env 0) s).1).2.2) := by
          rw [hmn]
          show (let t := tick (env 0) s;
                if t.2.2 then t
                else
                  let q := steps (shiftEnv env 1) (m + n) t.1
                  (q.1, t.2.1 ++ q.2.1, q.2.2)) = _
          simp [h]
        have h2 : steps env (m + 1) s =
            ((steps (shiftEnv env 1) m (tick (env 0) s).1).1,
             (tick (env 0) s).2.1 ++
               (steps (shiftEnv env 1) m (tick (env 0) s).1).2.1,
             (steps (shiftEnv env 1) m (tick (env 0) s).1).2.2) := by
          show (let t := tick (env 0) s;
                if t.2.2 then t
                else
                  let q := steps (shiftEnv env 1) m t.1
                  (q.1, t.2.1 ++ q.2.1, q.2.2)) = _
          simp [h]
        rw [h1, h2, ih]
        by_cases h3 : (steps (shiftEnv env 1) m (tick (env 0) s).1).2.2 <;>
          simp [h3, shiftEnv_shiftEnv, List.append_assoc]

theorem steps_back (env : Nat → TickIn) (n : Nat) (s : DrvState) :
    steps env (n + 1) s =
      (if (steps env n s).2.2 then steps env n s
       else
         ((tick (env n) (steps env n s).1).1,
          (steps env n s).2.1 ++ (tick (env n) (steps env n s).1).2.1,
          (tick (env n) (steps env n s).1).2.2)) := by
  have h := steps_add env n 1 s
  rw [steps_one] at h
  simpa [shiftEnv] using h

/-- Once a run has exited it stays exited with the same state and trace. -/
theorem steps_frozen (env : Nat → TickIn) (m n : Nat) (s : DrvState)
    (h : (steps env m s).2.2 = true) (hmn : m ≤ n) :
    steps env n s = steps env m s := by
  obtain ⟨k, rfl⟩ := Nat.exists_eq_add_of_le hmn
  rw [steps_add env m k s, if_pos h]

/-- Exit is monotone along a run. -/
theorem steps_exit_mono (env : Nat → TickIn) (m n : Nat) (s : DrvState)
    (h : (steps env m s).2.2 = true) (hmn : m ≤ n) :
    (steps env n s).2.2 = true := by
  rw [steps_frozen env m n s h hmn]; exact h

/-- Prepend one non-exiting tick to a run. -/
theorem steps_cons {env : Nat → TickIn} {n : Nat} {s s1 : DrvState}
    {ops1 : List GpioOp}
    (h1 : tick (env 0) s = (s1, ops1, false))
    {s2 : DrvState} {ops2 : List GpioOp} {ex : Bool}
    (h2 : steps (shiftEnv env 1) n s1 = (s2, ops2, ex)) :
    steps env (n + 1) s = (s2, ops1 ++ ops2, ex) := by
  show (let t := tick (env 0) s;
        if t.2.2 then t
        else
          let q := steps (shiftEnv env 1) n t.1
          (q.1, t.2.1 ++ q.2.1, q.2.2)) = _
  rw [h1]
  simp [h2]

/-- A one-tick run is just that tick. -/
theorem steps_last {env : Nat → TickIn} {s : DrvState}
    {out : DrvState × List GpioOp × Bool} (h : tick (env 0) s = out) :
    steps env 1 s = out := by
  rw [steps_one, h]

/-- Sequential composition of two runs, the first of which does not exit. -/
theorem steps_seq {env : Nat → TickIn} {a b : Nat} {s s1 s2 : DrvState}
    {ops1 ops2 : List GpioOp} {ex : Bool}
    (h1 : steps env a s = (s1, ops1, false))
    (h2 : steps (shiftEnv env a) b s1 = (s2, ops2, ex)) :
    steps env (a + b) s = (s2, ops1 ++ ops2, ex) := by
  rw [steps_add env a b s, h1]
  simp [h2]

/-! ### Canonical in-flight states and per-tick lemmas -/

/-- SDA level driven for bit `i` (0 = MSB) of a transmitted byte `b`:
the `data & mask` test of `state_tx`. -/
def txBitOp (b i : Nat) : GpioOp :=
  if b &&& (128 >>> i) ≠ 0 then .sdaSet else .sdaClr

/-- GPIO operations of one `state_tx` tick entered in sub-state `st`
while transmitting byte `b` (no clock stretching).  The `ACK_SCL_CLR`
entry is the sampling visit. -/
def txStepOps (b : Nat) : StateTx → List GpioOp
  | .DATA_7_SCL_CLR => [.sclClr, txBitOp b 0]
  | .DATA_7_SCL_SET => [.sclSet]
  | .DATA_6_SCL_CLR => [.sclClr, txBitOp b 1]
  | .DATA_6_SCL_SET => [.sclSet]
  | .DATA_5_SCL_CLR => [.sclClr, txBitOp b 2]
  | .DATA_5_SCL_SET => [.sclSet]
  | .DATA_4_SCL_CLR => [.sclClr, txBitOp b 3]
  | .DATA_4_SCL_SET => [.sclSet]
  | .DATA_3_SCL_CLR => [.sclClr, txBitOp b 4]
  | .DATA_3_SCL_SET => [.sclSet]
  | .DATA_2_SCL_CLR => [.sclClr, txBitOp b 5]
  | .DATA_2_SCL_SET => [.sclSet]
  | .DATA_1_SCL_CLR => [.sclClr, txBitOp b 6]
  | .DATA_1_SCL_SET => [.sclSet]
  | .DATA_0_SCL_CLR => [.sclClr, txBitOp b 7]
  | .DATA_0_SCL_SET => [.sclSet]
  | .ACK_SDA_SET_SCL_CLR => [.sclClr, .sdaSet]
  | .ACK_SCL_SET => [.sclSet]
  | .ACK_SCL_CLR => [.sclClr]

/-- Full GPIO trace of transmitting byte `b` (19 ticks, no stretching). -/
def txByteOps (b : Nat) : List GpioOp :=
  [.sclClr, txBitOp b 0, .sclSet,
   .sclClr, txBitOp b 1, .sclSet,
   .sclClr, txBitOp b 2, .sclSet,
   .sclClr, txBitOp b 3, .sclSet,
   .sclClr, txBitOp b 4, .sclSet,
   .sclClr, txBitOp b 5, .sclSet,
   .sclClr, txBitOp b 6, .sclSet,
   .sclClr, txBitOp b 7, .sclSet,
   .sclClr, .sdaSet, .sclSet, .sclClr]

/-- Trace of the start-condition sub-machine (3 ticks). -/
def startOps : List GpioOp := [.sdaSet, .sclSet, .sdaClr]

/-- Trace of the stop-condition sub-machine (3 ticks). -/
def stopOps : List GpioOp := [.sdaClr, .sclSet, .sdaSet]

/-- In-flight state during the `ADDRESS` phase with transmit sub-state
`st` (no clock stretch pending). -/
def addrAt (m : Msg) (stop : Bool) (st : StateTx) : DrvState :=
  ⟨some m, 0, .ADDRESS, .tx st, stop, false⟩

/-- In-flight state during the `DATA_TX` phase on byte `k` with transmit
sub-state `st` (no clock stretch pending). -/
def dtxAt (m : Msg) (k : Nat) (stop : Bool) (st : StateTx) : DrvState :=
  ⟨some m, (k : Int), .DATA_TX, .tx st, stop, false⟩

/-- In-flight state during the `DATA_RX` phase on byte `k` with receive
sub-state `st` (no clock stretch pending). -/
def rxAt (m : Msg) (k : Nat) (stop : Bool) (st : StateRx) : DrvState :=
  ⟨some m, (k : Int), .DATA_RX, .rx st, stop, false⟩

/-- In-flight state during the `STOP` phase. -/
def stopAt (om : Option Msg) (c : Int) (stop : Bool) (st : StateStop) :
    DrvState :=
  ⟨om, c, .STOP, .stp st, stop, false⟩

/-- One `DATA_TX` tick in any sub-state before the acknowledge sample:
advance the sub-state and emit its operations. -/
theorem tick_dtx_step (inp : TickIn) (m : Msg) (k : Nat) (stop : Bool)
    (st : StateTx) (hst : st ≠ .ACK_SCL_CLR) :
    tick inp (dtxAt m k stop st) =
      (dtxAt m k stop st.inc, txStepOps (m.buf.getD k 0) st, false) := by
  cases st <;>
    simp [tick, state_tx, dtxAt, txStepOps, txBitOp, txDataMask,
      StateTx.val, StateTx.inc] at hst ⊢

/-- One `ADDRESS` tick in any sub-state before the acknowledge sample. -/
theorem tick_addr_step (inp : TickIn) (m : Msg) (stop : Bool)
    (st : StateTx) (hst : st ≠ .ACK_SCL_CLR) :
    tick inp (addrAt m stop st) =
      (addrAt m stop st.inc, txStepOps (addressByte m) st, false) := by
  cases st <;>
    simp [tick, state_tx, addrAt, txStepOps, txBitOp, txDataMask,
      StateTx.val, StateTx.inc] at hst ⊢


/-- Head of the transmit-byte trace: everything before the final
acknowledge-sample tick. -/
def txByteHeadOps (b : Nat) : List GpioOp :=
  [.sclClr, txBitOp b 0, .sclSet,
   .sclClr, txBitOp b 1, .sclSet,
   .sclClr, txBitOp b 2, .sclSet,
   .sclClr, txBitOp b 3, .sclSet,
   .sclClr, txBitOp b 4, .sclSet,
   .sclClr, txBitOp b 5, .sclSet,
   .sclClr, txBitOp b 6, .sclSet,
   .sclClr, txBitOp b 7, .sclSet,
   .sclClr, .sdaSet, .sclSet]

/-- The first 18 ticks of a `DATA_TX` byte (up to but excluding the
acknowledge sample): pure clocking, no inputs consulted. -/
theorem dtx_run18 (env : Nat → TickIn) (m : Msg) (k : Nat) (stop : Bool) :
    steps env 18 (dtxAt m k stop .DATA_7_SCL_CLR) =
      (dtxAt m k stop .ACK_SCL_CLR, txByteHeadOps ((m.buf.getD k 0)), false) := by
  have h17 : steps (shiftEnv env 17) 1 (dtxAt m k stop .ACK_SCL_SET) =
      (dtxAt m k stop .ACK_SCL_CLR, txStepOps (m.buf.getD k 0) .ACK_SCL_SET, false) :=
    steps_last (tick_dtx_step _ m k stop _ (by decide))
  have h16 : steps (shiftEnv env 16) 2 (dtxAt m k stop .ACK_SDA_SET_SCL_CLR) =
      (dtxAt m k stop .ACK_SCL_CLR, txStepOps (m.buf.getD k 0) .ACK_SDA_SET_SCL_CLR ++ (txStepOps (m.buf.getD k 0) .ACK_SCL_SET), false) :=
    steps_cons (tick_dtx_step _ m k stop _ (by decide)) h17
  have h15 : steps (shiftEnv env 15) 3 (dtxAt m k stop .DATA_0_SCL_SET) =
      (dtxAt m k stop .ACK_SCL_CLR, txStepOps (m.buf.getD k 0) .DATA_0_SCL_SET ++ (txStepOps (m.buf.getD k 0) .ACK_SDA_SET_SCL_CLR ++ (txStepOps (m.buf.getD k 0) .ACK_SCL_SET)), false) :=
    steps_cons (tick_dtx_step _ m k stop _ (by decide)) h16
  have h14 : steps (shiftEnv env 14) 4 (dtxAt m k stop .DATA_0_SCL_CLR) =
      (dtxAt m k stop .ACK_SCL_CLR, txStepOps (m.buf.getD k 0) .DATA_0_SCL_CLR ++ (txStepOps (m.buf.getD k 0) .DATA_0_SCL_SET ++ (txStepOps (m.buf.getD k 0) .ACK_SDA_SET_SCL_CLR ++ (txStepOps (m.buf.getD k 0) .ACK_SCL_SET))), false) :=
    steps_cons (tick_dtx_step _ m k stop _ (by decide)) h15
  have h13 : steps (shiftEnv env 13) 5 (dtxAt m k stop .DATA_1_SCL_SET) =
      (dtxAt m k stop .ACK_SCL_CLR, txStepOps (m.buf.getD k 0) .DATA_1_SCL_SET ++ (txStepOps (m.buf.getD k 0) .DATA_0_SCL_CLR ++ (txStepOps (m.buf.getD k 0) .DATA_0_SCL_SET ++ (txStepOps (m.buf.getD k 0) .ACK_SDA_SET_SCL_CLR ++ (txStepOps (m.buf.getD k 0) .ACK_SCL_SET)))), false) :=
    steps_cons (tick_dtx_step _ m k stop _ (by decide)) h14
  have h12 : steps (shiftEnv env 12) 6 (dtxAt m k stop .DATA_1_SCL_CLR) =
      (dtxAt m k stop .ACK_SCL_CLR, txStepOps (m.buf.getD k 0) .DATA_1_SCL_CLR ++ (txStepOps (m.buf.getD k 0) .DATA_1_SCL_SET ++ (txStepOps (m.buf.getD k 0) .DATA_0_SCL_CLR ++ (txStepOps (m.buf.getD k 0) .DATA_0_SCL_SET ++ (txStepOps (m.buf.getD k 0) .ACK_SDA_SET_SCL_CLR ++ (txStepOps (m.buf.getD k 0) .ACK_SCL_SET))))), false) :=
    steps_cons (tick_dtx_step _ m k stop _ (by decide)) h13
  have h11 : steps (shiftEnv env 11) 7 (dtxAt m k stop .DATA_2_SCL_SET) =
      (dtxAt m k stop .ACK_SCL_CLR, txStepOps (m.buf.getD k 0) .DATA_2_SCL_SET ++ (txStepOps (m.buf.getD k 0) .DATA_1_SCL_CLR ++ (txStepOps (m.buf.getD k 0) .DATA_1_SCL_SET ++ (txStepOps (m.buf.getD k 0) .DATA_0_SCL_CLR ++ (txStepOps (m.buf.getD k 0) .DATA_0_SCL_SET ++ (txStepOps (m.buf.getD k 0) .ACK_SDA_SET_SCL_CLR ++ (txStepOps (m.buf.getD k 0) .ACK_SCL_SET)))))), false) :=
    steps_cons (tick_dtx_step _ m k stop _ (by decide)) h12
  have h10 : steps (shiftEnv env 10) 8 (dtxAt m k stop .DATA_2_SCL_CLR) =
      (dtxAt m k stop .ACK_SCL_CLR, txStepOps (m.buf.getD k 0) .DATA_2_SCL_CLR ++ (txStepOps (m.buf.getD k 0) .DATA_2_SCL_SET ++ (txStepOps (m.buf.getD k 0) .DATA_1_SCL_CLR ++ (txStepOps (m.buf.getD k 0) .DATA_1_SCL_SET ++ (txStepOps (m.buf.getD k 0) .DATA_0_SCL_CLR ++ (txStepOps (m.buf.getD k 0) .DATA_0_SCL_SET ++ (txStepOps (m.buf.getD k 0) .ACK_SDA_SET_SCL_CLR ++ (txStepOps (m.buf.getD k 0) .ACK_SCL_SET))))))), false) :=
    steps_cons (tick_dtx_step _ m k stop _ (by decide)) h11
  have h9 : steps (shiftEnv env 9) 9 (dtxAt m k stop .DATA_3_SCL_SET) =
      (dtxAt m k stop .ACK_SCL_CLR, txStepOps (m.buf.getD k 0) .DATA_3_SCL_SET ++ (txStepOps (m.buf.getD k 0) .DATA_2_SCL_CLR ++ (txStepOps (m.buf.getD k 0) .DATA_2_SCL_SET ++ (txStepOps (m.buf.getD k 0) .DATA_1_SCL_CLR ++ (txStepOps (m.buf.getD k 0) .DATA_1_SCL_SET ++ (txStepOps (m.buf.getD k 0) .DATA_0_SCL_CLR ++ (txStepOps (m.buf.getD k 0) .DATA_0_SCL_SET ++ (txStepOps (m.buf.getD k 0) .ACK_SDA_SET_SCL_CLR ++ (txStepOps (m.buf.getD k 0) .ACK_SCL_SET)))))))), false) :=
    steps_cons (tick_dtx_step _ m k stop _ (by decide)) h10
  have h8 : steps (shiftEnv env 8) 10 (dtxAt m k stop .DATA_3_SCL_CLR) =
      (dtxAt m k stop .ACK_SCL_CLR, txStepOps (m.buf.getD k 0) .DATA_3_SCL_CLR ++ (txStepOps (m.buf.getD k 0) .DATA_3_SCL_SET ++ (txStepOps (m.buf.getD k 0) .DATA_2_SCL_CLR ++ (txStepOps (m.buf.getD k 0) .DATA_2_SCL_SET ++ (txStepOps (m.buf.getD k 0) .DATA_1_SCL_CLR ++ (txStepOps (m.buf.getD k 0) .DATA_1_SCL_SET ++ (txStepOps (m.buf.getD k 0) .DATA_0_SCL_CLR ++ (txStepOps (m.buf.getD k 0) .DATA_0_SCL_SET ++ (txStepOps (m.buf.getD k 0) .ACK_SDA_SET_SCL_CLR ++ (txStepOps (m.buf.getD k 0) .ACK_SCL_SET))))))))), false) :=
    steps_cons (tick_dtx_step _ m k stop _ (by decide)) h9
  have h7 : steps (shiftEnv env 7) 11 (dtxAt m k stop .DATA_4_SCL_SET) =
      (dtxAt m k stop .ACK_SCL_CLR, txStepOps (m.buf.getD k 0) .DATA_4_SCL_SET ++ (txStepOps (m.buf.getD k 0) .DATA_3_SCL_CLR ++ (txStepOps (m.buf.getD k 0) .DATA_3_SCL_SET ++ (txStepOps (m.buf.getD k 0) .DATA_2_SCL_CLR ++ (txStepOps (m.buf.getD k 0) .DATA_2_SCL_SET ++ (txStepOps (m.buf.getD k 0) .DATA_1_SCL_CLR ++ (txStepOps (m.buf.getD k 0) .DATA_1_SCL_SET ++ (txStepOps (m.buf.getD k 0) .DATA_0_SCL_CLR ++ (txStepOps (m.buf.getD k 0) .DATA_0_SCL_SET ++ (txStepOps (m.buf.getD k 0) .ACK_SDA_SET_SCL_CLR ++ (txStepOps (m.buf.getD k 0) .ACK_SCL_SET)))))))))), false) :=
    steps_cons (tick_dtx_step _ m k stop _ (by decide)) h8
  have h6 : steps (shiftEnv env 6) 12 (dtxAt m k stop .DATA_4_SCL_CLR) =
      (dtxAt m k stop .ACK_SCL_CLR, txStepOps (m.buf.getD k 0) .DATA_4_SCL_CLR ++ (txStepOps (m.buf.getD k 0) .DATA_4_SCL_SET ++ (txStepOps (m.buf.getD k 0) .DATA_3_SCL_CLR ++ (txStepOps (m.buf.getD k 0) .DATA_3_SCL_SET ++ (txStepOps (m.buf.getD k 0) .DATA_2_SCL_CLR ++ (txStepOps (m.buf.getD k 0) .DATA_2_SCL_SET ++ (txStepOps (m.buf.getD k 0) .DATA_1_SCL_CLR ++ (txStepOps (m.buf.getD k 0) .DATA_1_SCL_SET ++ (txStepOps (m.buf.getD k 0) .DATA_0_SCL_CLR ++ (txStepOps (m.buf.getD k 0) .DATA_0_SCL_SET ++ (txStepOps (m.buf.getD k 0) .ACK_SDA_SET_SCL_CLR ++ (txStepOps (m.buf.getD k 0) .ACK_SCL_SET))))))))))), false) :=
    steps_cons (tick_dtx_step _ m k stop _ (by decide)) h7
  have h5 : steps (shiftEnv env 5) 13 (dtxAt m k stop .DATA_5_SCL_SET) =
      (dtxAt m k stop .ACK_SCL_CLR, txStepOps (m.buf.getD k 0) .DATA_5_SCL_SET ++ (txStepOps (m.buf.getD k 0) .DATA_4_SCL_CLR ++ (txStepOps (m.buf.getD k 0) .DATA_4_SCL_SET ++ (txStepOps (m.buf.getD k 0) .DATA_3_SCL_CLR ++ (txStepOps (m.buf.getD k 0) .DATA_3_SCL_SET ++ (txStepOps (m.buf.getD k 0) .DATA_2_SCL_CLR ++ (txStepOps (m.buf.getD k 0) .DATA_2_SCL_SET ++ (txStepOps (m.buf.getD k 0) .DATA_1_SCL_CLR ++ (txStepOps (m.buf.getD k 0) .DATA_1_SCL_SET ++ (txStepOps (m.buf.getD k 0) .DATA_0_SCL_CLR ++ (txStepOps (m.buf.getD k 0) .DATA_0_SCL_SET ++ (txStepOps (m.buf.getD k 0) .ACK_SDA_SET_SCL_CLR ++ (txStepOps (m.buf.getD k 0) .ACK_SCL_SET)))))))))))), false) :=
    steps_cons (tick_dtx_step _ m k stop _ (by decide)) h6
  have h4 : steps (shiftEnv env 4) 14 (dtxAt m k stop .DATA_5_SCL_CLR) =
      (dtxAt m k stop .ACK_SCL_CLR, txStepOps (m.buf.getD k 0) .DATA_5_SCL_CLR ++ (txStepOps (m.buf.getD k 0) .DATA_5_SCL_SET ++ (txStepOps (m.buf.getD k 0) .DATA_4_SCL_CLR ++ (txStepOps (m.buf.getD k 0) .DATA_4_SCL_SET ++ (txStepOps (m.buf.getD k 0) .DATA_3_SCL_CLR ++ (txStepOps (m.buf.getD k 0) .DATA_3_SCL_SET ++ (txStepOps (m.buf.getD k 0) .DATA_2_SCL_CLR ++ (txStepOps (m.buf.getD k 0) .DATA_2_SCL_SET ++ (txStepOps (m.buf.getD k 0) .DATA_1_SCL_CLR ++ (txStepOps (m.buf.getD k 0) .DATA_1_SCL_SET ++ (txStepOps (m.buf.getD k 0) .DATA_0_SCL_CLR ++ (txStepOps (m.buf.getD k 0) .DATA_0_SCL_SET ++ (txStepOps (m.buf.getD k 0) .ACK_SDA_SET_SCL_CLR ++ (txStepOps (m.buf.getD k 0) .ACK_SCL_SET))))))))))))), false) :=
    steps_cons (tick_dtx_step _ m k stop _ (by decide)) h5
  have h3 : steps (shiftEnv env 3) 15 (dtxAt m k stop .DATA_6_SCL_SET) =
      (dtxAt m k stop .ACK_SCL_CLR, txStepOps (m.buf.getD k 0) .DATA_6_SCL_SET ++ (txStepOps (m.buf.getD k 0) .DATA_5_SCL_CLR ++ (txStepOps (m.buf.getD k 0) .DATA_5_SCL_SET ++ (txStepOps (m.buf.getD k 0) .DATA_4_SCL_CLR ++ (txStepOps (m.buf.getD k 0) .DATA_4_SCL_SET ++ (txStepOps (m.buf.getD k 0) .DATA_3_SCL_CLR ++ (txStepOps (m.buf.getD k 0) .DATA_3_SCL_SET ++ (txStepOps (m.buf.getD k 0) .DATA_2_SCL_CLR ++ (txStepOps (m.buf.getD k 0) .DATA_2_SCL_SET ++ (txStepOps (m.buf.getD k 0) .DATA_1_SCL_CLR ++ (txStepOps (m.buf.getD k 0) .DATA_1_SCL_SET ++ (txStepOps (m.buf.getD k 0) .DATA_0_SCL_CLR ++ (txStepOps (m.buf.getD k 0) .DATA_0_SCL_SET ++ (txStepOps (m.buf.getD k 0) .ACK_SDA_SET_SCL_CLR ++ (txStepOps (m.buf.getD k 0) .ACK_SCL_SET)))))))))))))), false) :=
    steps_cons (tick_dtx_step _ m k stop _ (by decide)) h4
  have h2 : steps (shiftEnv env 2) 16 (dtxAt m k stop .DATA_6_SCL_CLR) =
      (dtxAt m k stop .ACK_SCL_CLR, txStepOps (m.buf.getD k 0) .DATA_6_SCL_CLR ++ (txStepOps (m.buf.getD k 0) .DATA_6_SCL_SET ++ (txStepOps (m.buf.getD k 0) .DATA_5_SCL_CLR ++ (txStepOps (m.buf.getD k 0) .DATA_5_SCL_SET ++ (txStepOps (m.buf.getD k 0) .DATA_4_SCL_CLR ++ (txStepOps (m.buf.getD k 0) .DATA_4_SCL_SET ++ (txStepOps (m.buf.getD k 0) .DATA_3_SCL_CLR ++ (txStepOps (m.buf.getD k 0) .DATA_3_SCL_SET ++ (txStepOps (m.buf.getD k 0) .DATA_2_SCL_CLR ++ (txStepOps (m.buf.getD k 0) .DATA_2_SCL_SET ++ (txStepOps (m.buf.getD k 0) .DATA_1_SCL_CLR ++ (txStepOps (m.buf.getD k 0) .DATA_1_SCL_SET ++ (txStepOps (m.buf.getD k 0) .DATA_0_SCL_CLR ++ (txStepOps (m.buf.getD k 0) .DATA_0_SCL_SET ++ (txStepOps (m.buf.getD k 0) .ACK_SDA_SET_SCL_CLR ++ (txStepOps (m.buf.getD k 0) .ACK_SCL_SET))))))))))))))), false) :=
    steps_cons (tick_dtx_step _ m k stop _ (by decide)) h3
  have h1 : steps (shiftEnv env 1) 17 (dtxAt m k stop .DATA_7_SCL_SET) =
      (dtxAt m k stop .ACK_SCL_CLR, txStepOps (m.buf.getD k 0) .DATA_7_SCL_SET ++ (txStepOps (m.buf.getD k 0) .DATA_6_SCL_CLR ++ (txStepOps (m.buf.getD k 0) .DATA_6_SCL_SET ++ (txStepOps (m.buf.getD k 0) .DATA_5_SCL_CLR ++ (txStepOps (m.buf.getD k 0) .DATA_5_SCL_SET ++ (txStepOps (m.buf.getD k 0) .DATA_4_SCL_CLR ++ (txStepOps (m.buf.getD k 0) .DATA_4_SCL_SET ++ (txStepOps (m.buf.getD k 0) .DATA_3_SCL_CLR ++ (txStepOps (m.buf.getD k 0) .DATA_3_SCL_SET ++ (txStepOps (m.buf.getD k 0) .DATA_2_SCL_CLR ++ (txStepOps (m.buf.getD k 0) .DATA_2_SCL_SET ++ (txStepOps (m.buf.getD k 0) .DATA_1_SCL_CLR ++ (txStepOps (m.buf.getD k 0) .DATA_1_SCL_SET ++ (txStepOps (m.buf.getD k 0) .DATA_0_SCL_CLR ++ (txStepOps (m.buf.getD k 0) .DATA_0_SCL_SET ++ (txStepOps (m.buf.getD k 0) .ACK_SDA_SET_SCL_CLR ++ (txStepOps (m.buf.getD k 0) .ACK_SCL_SET)))))))))))))))), false) :=
    steps_cons (tick_dtx_step _ m k stop _ (by decide)) h2
  have h0 : steps (shiftEnv env 0) 18 (dtxAt m k stop .DATA_7_SCL_CLR) =
      (dtxAt m k stop .ACK_SCL_CLR, txStepOps (m.buf.getD k 0) .DATA_7_SCL_CLR ++ (txStepOps (m.buf.getD k 0) .DATA_7_SCL_SET ++ (txStepOps (m.buf.getD k 0) .DATA_6_SCL_CLR ++ (txStepOps (m.buf.getD k 0) .DATA_6_SCL_SET ++ (txStepOps (m.buf.getD k 0) .DATA_5_SCL_CLR ++ (txStepOps (m.buf.getD k 0) .DATA_5_SCL_SET ++ (txStepOps (m.buf.getD k 0) .DATA_4_SCL_CLR ++ (txStepOps (m.buf.getD k 0) .DATA_4_SCL_SET ++ (txStepOps (m.buf.getD k 0) .DATA_3_SCL_CLR ++ (txStepOps (m.buf.getD k 0) .DATA_3_SCL_SET ++ (txStepOps (m.buf.getD k 0) .DATA_2_SCL_CLR ++ (txStepOps (m.buf.getD k 0) .DATA_2_SCL_SET ++ (txStepOps (m.buf.getD k 0) .DATA_1_SCL_CLR ++ (txStepOps (m.buf.getD k 0) .DATA_1_SCL_SET ++ (txStepOps (m.buf.getD k 0) .DATA_0_SCL_CLR ++ (txStepOps (m.buf.getD k 0) .DATA_0_SCL_SET ++ (txStepOps (m.buf.getD k 0) .ACK_SDA_SET_SCL_CLR ++ (txStepOps (m.buf.getD k 0) .ACK_SCL_SET))))))))))))))))), false) :=
    steps_cons (tick_dtx_step _ m k stop _ (by decide)) h1
  have h := h0
  rw [shiftEnv_zero] at h
  rw [h]
  simp [txStepOps, txByteHeadOps]

/-- The first 18 ticks of the `ADDRESS` byte (up to but excluding the
acknowledge sample). -/
theorem addr_run18 (env : Nat → TickIn) (m : Msg) (stop : Bool) :
    steps env 18 (addrAt m stop .DATA_7_SCL_CLR) =
      (addrAt m stop .ACK_SCL_CLR, txByteHeadOps ((addressByte m)), false) := by
  have h17 : steps (shiftEnv env 17) 1 (addrAt m stop .ACK_SCL_SET) =
      (addrAt m stop .ACK_SCL_CLR, txStepOps (addressByte m) .ACK_SCL_SET, false) :=
    steps_last (tick_addr_step _ m stop _ (by decide))
  have h16 : steps (shiftEnv env 16) 2 (addrAt m stop .ACK_SDA_SET_SCL_CLR) =
      (addrAt m stop .ACK_SCL_CLR, txStepOps (addressByte m) .ACK_SDA_SET_SCL_CLR ++ (txStepOps (addressByte m) .ACK_SCL_SET), false) :=
    steps_cons (tick_addr_step _ m stop _ (by decide)) h17
  have h15 : steps (shiftEnv env 15) 3 (addrAt m stop .DATA_0_SCL_SET) =
      (addrAt m stop .ACK_SCL_CLR, txStepOps (addressByte m) .DATA_0_SCL_SET ++ (txStepOps (addressByte m) .ACK_SDA_SET_SCL_CLR ++ (txStepOps (addressByte m) .ACK_SCL_SET)), false) :=
    steps_cons (tick_addr_step _ m stop _ (by decide)) h16
  have h14 : steps (shiftEnv env 14) 4 (addrAt m stop .DATA_0_SCL_CLR) =
      (addrAt m stop .ACK_SCL_CLR, txStepOps (addressByte m) .DATA_0_SCL_CLR ++ (txStepOps (addressByte m) .DATA_0_SCL_SET ++ (txStepOps (addressByte m) .ACK_SDA_SET_SCL_CLR ++ (txStepOps (addressByte m) .ACK_SCL_SET))), false) :=
    steps_cons (tick_addr_step _ m stop _ (by decide)) h15
  have h13 : steps (shiftEnv env 13) 5 (addrAt m stop .DATA_1_SCL_SET) =
      (addrAt m stop .ACK_SCL_CLR, txStepOps (addressByte m) .DATA_1_SCL_SET ++ (txStepOps (addressByte m) .DATA_0_SCL_CLR ++ (txStepOps (addressByte m) .DATA_0_SCL_SET ++ (txStepOps (addressByte m) .ACK_SDA_SET_SCL_CLR ++ (txStepOps (addressByte m) .ACK_SCL_SET)))), false) :=
    steps_cons (tick_addr_step _ m stop _ (by decide)) h14
  have h12 : steps (shiftEnv env 12) 6 (addrAt m stop .DATA_1_SCL_CLR) =
      (addrAt m stop .ACK_SCL_CLR, txStepOps (addressByte m) .DATA_1_SCL_CLR ++ (txStepOps (addressByte m) .DATA_1_SCL_SET ++ (txStepOps (addressByte m) .DATA_0_SCL_CLR ++ (txStepOps (addressByte m) .DATA_0_SCL_SET ++ (txStepOps (addressByte m) .ACK_SDA_SET_SCL_CLR ++ (txStepOps (addressByte m) .ACK_SCL_SET))))), false) :=
    steps_cons (tick_addr_step _ m stop _ (by decide)) h13
  have h11 : steps (shiftEnv env 11) 7 (addrAt m stop .DATA_2_SCL_SET) =
      (addrAt m stop .ACK_SCL_CLR, txStepOps (addressByte m) .DATA_2_SCL_SET ++ (txStepOps (addressByte m) .DATA_1_SCL_CLR ++ (txStepOps (addressByte m) .DATA_1_SCL_SET ++ (txStepOps (addressByte m) .DATA_0_SCL_CLR ++ (txStepOps (addressByte m) .DATA_0_SCL_SET ++ (txStepOps (addressByte m) .ACK_SDA_SET_SCL_CLR ++ (txStepOps (addressByte m) .ACK_SCL_SET)))))), false) :=
    steps_cons (tick_addr_step _ m stop _ (by decide)) h12
  have h10 : steps (shiftEnv env 10) 8 (addrAt m stop .DATA_2_SCL_CLR) =
      (addrAt m stop .ACK_SCL_CLR, txStepOps (addressByte m) .DATA_2_SCL_CLR ++ (txStepOps (addressByte m) .DATA_2_SCL_SET ++ (txStepOps (addressByte m) .DATA_1_SCL_CLR ++ (txStepOps (addressByte m) .DATA_1_SCL_SET ++ (txStepOps (addressByte m) .DATA_0_SCL_CLR ++ (txStepOps (addressByte m) .DATA_0_SCL_SET ++ (txStepOps (addressByte m) .ACK_SDA_SET_SCL_CLR ++ (txStepOps (addressByte m) .ACK_SCL_SET))))))), false) :=
    steps_cons (tick_addr_step _ m stop _ (by decide)) h11
  have h9 : steps (shiftEnv env 9) 9 (addrAt m stop .DATA_3_SCL_SET) =
      (addrAt m stop .ACK_SCL_CLR, txStepOps (addressByte m) .DATA_3_SCL_SET ++ (txStepOps (addressByte m) .DATA_2_SCL_CLR ++ (txStepOps (addressByte m) .DATA_2_SCL_SET ++ (txStepOps (addressByte m) .DATA_1_SCL_CLR ++ (txStepOps (addressByte m) .DATA_1_SCL_SET ++ (txStepOps (addressByte m) .DATA_0_SCL_CLR ++ (txStepOps (addressByte m) .DATA_0_SCL_SET ++ (txStepOps (addressByte m) .ACK_SDA_SET_SCL_CLR ++ (txStepOps (addressByte m) .ACK_SCL_SET)))))))), false) :=
    steps_cons (tick_addr_step _ m stop _ (by decide)) h10
  have h8 : steps (shiftEnv env 8) 10 (addrAt m stop .DATA_3_SCL_CLR) =
      (addrAt m stop .ACK_SCL_CLR, txStepOps (addressByte m) .DATA_3_SCL_CLR ++ (txStepOps (addressByte m) .DATA_3_SCL_SET ++ (txStepOps (addressByte m) .DATA_2_SCL_CLR ++ (txStepOps (addressByte m) .DATA_2_SCL_SET ++ (txStepOps (addressByte m) .DATA_1_SCL_CLR ++ (txStepOps (addressByte m) .DATA_1_SCL_SET ++ (txStepOps (addressByte m) .DATA_0_SCL_CLR ++ (txStepOps (addressByte m) .DATA_0_SCL_SET ++ (txStepOps (addressByte m) .ACK_SDA_SET_SCL_CLR ++ (txStepOps (addressByte m) .ACK_SCL_SET))))))))), false) :=
    steps_cons (tick_addr_step _ m stop _ (by decide)) h9
  have h7 : steps (shiftEnv env 7) 11 (addrAt m stop .DATA_4_SCL_SET) =
      (addrAt m stop .ACK_SCL_CLR, txStepOps (addressByte m) .DATA_4_SCL_SET ++ (txStepOps (addressByte m) .DATA_3_SCL_CLR ++ (txStepOps (addressByte m) .DATA_3_SCL_SET ++ (txStepOps (addressByte m) .DATA_2_SCL_CLR ++ (txStepOps (addressByte m) .DATA_2_SCL_SET ++ (txStepOps (addressByte m) .DATA_1_SCL_CLR ++ (txStepOps (addressByte m) .DATA_1_SCL_SET ++ (txStepOps (addressByte m) .DATA_0_SCL_CLR ++ (txStepOps (addressByte m) .DATA_0_SCL_SET ++ (txStepOps (addressByte m) .ACK_SDA_SET_SCL_CLR ++ (txStepOps (addressByte m) .ACK_SCL_SET)))))))))), false) :=
    steps_cons (tick_addr_step _ m stop _ (by decide)) h8
  have h6 : steps (shiftEnv env 6) 12 (addrAt m stop .DATA_4_SCL_CLR) =
      (addrAt m stop .ACK_SCL_CLR, txStepOps (addressByte m) .DATA_4_SCL_CLR ++ (txStepOps (addressByte m) .DATA_4_SCL_SET ++ (txStepOps (addressByte m) .DATA_3_SCL_CLR ++ (txStepOps (addressByte m) .DATA_3_SCL_SET ++ (txStepOps (addressByte m) .DATA_2_SCL_CLR ++ (txStepOps (addressByte m) .DATA_2_SCL_SET ++ (txStepOps (addressByte m) .DATA_1_SCL_CLR ++ (txStepOps (addressByte m) .DATA_1_SCL_SET ++ (txStepOps (addressByte m) .DATA_0_SCL_CLR ++ (txStepOps (addressByte m) .DATA_0_SCL_SET ++ (txStepOps (addressByte m) .ACK_SDA_SET_SCL_CLR ++ (txStepOps (addressByte m) .ACK_SCL_SET))))))))))), false) :=
    steps_cons (tick_addr_step _ m stop _ (by decide)) h7
  have h5 : steps (shiftEnv env 5) 13 (addrAt m stop .DATA_5_SCL_SET) =
      (addrAt m stop .ACK_SCL_CLR, txStepOps (addressByte m) .DATA_5_SCL_SET ++ (txStepOps (addressByte m) .DATA_4_SCL_CLR ++ (txStepOps (addressByte m) .DATA_4_SCL_SET ++ (txStepOps (addressByte m) .DATA_3_SCL_CLR ++ (txStepOps (addressByte m) .DATA_3_SCL_SET ++ (txStepOps (addressByte m) .DATA_2_SCL_CLR ++ (txStepOps (addressByte m) .DATA_2_SCL_SET ++ (txStepOps (addressByte m) .DATA_1_SCL_CLR ++ (txStepOps (addressByte m) .DATA_1_SCL_SET ++ (txStepOps (addressByte m) .DATA_0_SCL_CLR ++ (txStepOps (addressByte m) .DATA_0_SCL_SET ++ (txStepOps (addressByte m) .ACK_SDA_SET_SCL_CLR ++ (txStepOps (addressByte m) .ACK_SCL_SET)))))))))))), false) :=
    steps_cons (tick_addr_step _ m stop _ (by decide)) h6
  have h4 : steps (shiftEnv env 4) 14 (addrAt m stop .DATA_5_SCL_CLR) =
      (addrAt m stop .ACK_SCL_CLR, txStepOps (addressByte m) .DATA_5_SCL_CLR ++ (txStepOps (addressByte m) .DATA_5_SCL_SET ++ (txStepOps (addressByte m) .DATA_4_SCL_CLR ++ (txStepOps (addressByte m) .DATA_4_SCL_SET ++ (txStepOps (addressByte m) .DATA_3_SCL_CLR ++ (txStepOps (addressByte m) .DATA_3_SCL_SET ++ (txStepOps (addressByte m) .DATA_2_SCL_CLR ++ (txStepOps (addressByte m) .DATA_2_SCL_SET ++ (txStepOps (addressByte m) .DATA_1_SCL_CLR ++ (txStepOps (addressByte m) .DATA_1_SCL_SET ++ (txStepOps (addressByte m) .DATA_0_SCL_CLR ++ (txStepOps (addressByte m) .DATA_0_SCL_SET ++ (txStepOps (addressByte m) .ACK_SDA_SET_SCL_CLR ++ (txStepOps (addressByte m) .ACK_SCL_SET))))))))))))), false) :=
    steps_cons (tick_addr_step _ m stop _ (by decide)) h5
  have h3 : steps (shiftEnv env 3) 15 (addrAt m stop .DATA_6_SCL_SET) =
      (addrAt m stop .ACK_SCL_CLR, txStepOps (addressByte m) .DATA_6_SCL_SET ++ (txStepOps (addressByte m) .DATA_5_SCL_CLR ++ (txStepOps (addressByte m) .DATA_5_SCL_SET ++ (txStepOps (addressByte m) .DATA_4_SCL_CLR ++ (txStepOps (addressByte m) .DATA_4_SCL_SET ++ (txStepOps (addressByte m) .DATA_3_SCL_CLR ++ (txStepOps (addressByte m) .DATA_3_SCL_SET ++ (txStepOps (addressByte m) .DATA_2_SCL_CLR ++ (txStepOps (addressByte m) .DATA_2_SCL_SET ++ (txStepOps (addressByte m) .DATA_1_SCL_CLR ++ (txStepOps (addressByte m) .DATA_1_SCL_SET ++ (txStepOps (addressByte m) .DATA_0_SCL_CLR ++ (txStepOps (addressByte m) .DATA_0_SCL_SET ++ (txStepOps (addressByte m) .ACK_SDA_SET_SCL_CLR ++ (txStepOps (addressByte m) .ACK_SCL_SET)))))))))))))), false) :=
    steps_cons (tick_addr_step _ m stop _ (by decide)) h4
  have h2 : steps (shiftEnv env 2) 16 (addrAt m stop .DATA_6_SCL_CLR) =
      (addrAt m stop .ACK_SCL_CLR, txStepOps (addressByte m) .DATA_6_SCL_CLR ++ (txStepOps (addressByte m) .DATA_6_SCL_SET ++ (txStepOps (addressByte m) .DATA_5_SCL_CLR ++ (txStepOps (addressByte m) .DATA_5_SCL_SET ++ (txStepOps (addressByte m) .DATA_4_SCL_CLR ++ (txStepOps (addressByte m) .DATA_4_SCL_SET ++ (txStepOps (addressByte m) .DATA_3_SCL_CLR ++ (txStepOps (addressByte m) .DATA_3_SCL_SET ++ (txStepOps (addressByte m) .DATA_2_SCL_CLR ++ (txStepOps (addressByte m) .DATA_2_SCL_SET ++ (txStepOps (addressByte m) .DATA_1_SCL_CLR ++ (txStepOps (addressByte m) .DATA_1_SCL_SET ++ (txStepOps (addressByte m) .DATA_0_SCL_CLR ++ (txStepOps (addressByte m) .DATA_0_SCL_SET ++ (txStepOps (addressByte m) .ACK_SDA_SET_SCL_CLR ++ (txStepOps (addressByte m) .ACK_SCL_SET))))))))))))))), false) :=
    steps_cons (tick_addr_step _ m stop _ (by decide)) h3
  have h1 : steps (shiftEnv env 1) 17 (addrAt m stop .DATA_7_SCL_SET) =
      (addrAt m stop .ACK_SCL_CLR, txStepOps (addressByte m) .DATA_7_SCL_SET ++ (txStepOps (addressByte m) .DATA_6_SCL_CLR ++ (txStepOps (addressByte m) .DATA_6_SCL_SET ++ (txStepOps (addressByte m) .DATA_5_SCL_CLR ++ (txStepOps (addressByte m) .DATA_5_SCL_SET ++ (txStepOps (addressByte m) .DATA_4_SCL_CLR ++ (txStepOps (addressByte m) .DATA_4_SCL_SET ++ (txStepOps (addressByte m) .DATA_3_SCL_CLR ++ (txStepOps (addressByte m) .DATA_3_SCL_SET ++ (txStepOps (addressByte m) .DATA_2_SCL_CLR ++ (txStepOps (addressByte m) .DATA_2_SCL_SET ++ (txStepOps (addressByte m) .DATA_1_SCL_CLR ++ (txStepOps (addressByte m) .DATA_1_SCL_SET ++ (txStepOps (addressByte m) .DATA_0_SCL_CLR ++ (txStepOps (addressByte m) .DATA_0_SCL_SET ++ (txStepOps (addressByte m) .ACK_SDA_SET_SCL_CLR ++ (txStepOps (addressByte m) .ACK_SCL_SET)))))))))))))))), false) :=
    steps_cons (tick_addr_step _ m stop _ (by decide)) h2
  have h0 : steps (shiftEnv env 0) 18 (addrAt m stop .DATA_7_SCL_CLR) =
      (addrAt m stop .ACK_SCL_CLR, txStepOps (addressByte m) .DATA_7_SCL_CLR ++ (txStepOps (addressByte m) .DATA_7_SCL_SET ++ (txStepOps (addressByte m) .DATA_6_SCL_CLR ++ (txStepOps (addressByte m) .DATA_6_SCL_SET ++ (txStepOps (addressByte m) .DATA_5_SCL_CLR ++ (txStepOps (addressByte m) .DATA_5_SCL_SET ++ (txStepOps (addressByte m) .DATA_4_SCL_CLR ++ (txStepOps (addressByte m) .DATA_4_SCL_SET ++ (txStepOps (addressByte m) .DATA_3_SCL_CLR ++ (txStepOps (addressByte m) .DATA_3_SCL_SET ++ (txStepOps (addressByte m) .DATA_2_SCL_CLR ++ (txStepOps (addressByte m) .DATA_2_SCL_SET ++ (txStepOps (addressByte m) .DATA_1_SCL_CLR ++ (txStepOps (addressByte m) .DATA_1_SCL_SET ++ (txStepOps (addressByte m) .DATA_0_SCL_CLR ++ (txStepOps (addressByte m) .DATA_0_SCL_SET ++ (txStepOps (addressByte m) .ACK_SDA_SET_SCL_CLR ++ (txStepOps (addressByte m) .ACK_SCL_SET))))))))))))))))), false) :=
    steps_cons (tick_addr_step _ m stop _ (by decide)) h1
  have h := h0
  rw [shiftEnv_zero] at h
  rw [h]
  simp [txStepOps, txByteHeadOps]

theorem txByteHead_append (b : Nat) :
    txByteHeadOps b ++ [GpioOp.sclClr] = txByteOps b := by
  simp [txByteHeadOps, txByteOps]

/-! ### Completing one transmitted byte (tick 19: the acknowledge sample) -/

/-- `DATA_TX` byte `k` with at least one more byte to go, slave ACKs:
19 ticks, advance to byte `k + 1`. -/
theorem dtx_byte_cont (env : Nat → TickIn) (m : Msg) (k : Nat) (stop : Bool)
    (hscl : (env 18).scl = true) (hack : (env 18).sda = false)
    (hlt : (k : Int) + 1 < (m.len : Int)) :
    steps env 19 (dtxAt m k stop .DATA_7_SCL_CLR) =
      (dtxAt m (k + 1) stop .DATA_7_SCL_CLR, txByteOps (m.buf.getD k 0),
       false) := by
  have hnge : ¬((k : Int) + 1 ≥ (m.len : Int)) := by omega
  have hack19 : steps (shiftEnv env 18) 1 (dtxAt m k stop .ACK_SCL_CLR) =
      (dtxAt m (k + 1) stop .DATA_7_SCL_CLR, [.sclClr], false) := by
    refine steps_last ?_
    simp [tick, state_tx, dtxAt, shiftEnv, hscl, hack, hnge]
  have h := steps_seq (dtx_run18 env m k stop) hack19
  rw [h, txByteHead_append]

/-- `DATA_TX` final byte with a stop requested, slave ACKs: move to the
stop sequence with `count_ = len`. -/
theorem dtx_byte_last_stop (env : Nat → TickIn) (m : Msg) (k : Nat)
    (hscl : (env 18).scl = true) (hack : (env 18).sda = false)
    (hlast : (k : Int) + 1 = (m.len : Int)) :
    steps env 19 (dtxAt m k true .DATA_7_SCL_CLR) =
      (stopAt (some m) ((k : Int) + 1) true .SDA_CLR,
       txByteOps (m.buf.getD k 0), false) := by
  have hge : (k : Int) + 1 ≥ (m.len : Int) := by omega
  have hack19 : steps (shiftEnv env 18) 1 (dtxAt m k true .ACK_SCL_CLR) =
      (stopAt (some m) ((k : Int) + 1) true .SDA_CLR, [.sclClr], false) := by
    refine steps_last ?_
    simp [tick, state_tx, dtxAt, stopAt, shiftEnv, hscl, hack, hge]
  have h := steps_seq (dtx_run18 env m k true) hack19
  rw [h, txByteHead_append]

/-- `DATA_TX` final byte with no stop requested, slave ACKs: the tick
exits directly (repeated-start use case) with `count_ = len`. -/
theorem dtx_byte_last_nostop (env : Nat → TickIn) (m : Msg) (k : Nat)
    (hscl : (env 18).scl = true) (hack : (env 18).sda = false)
    (hlast : (k : Int) + 1 = (m.len : Int)) :
    steps env 19 (dtxAt m k false .DATA_7_SCL_CLR) =
      (⟨some m, (k : Int) + 1, .DATA_TX, .tx .ACK_SCL_CLR, false, false⟩,
       txByteOps (m.buf.getD k 0), true) := by
  have hge : (k : Int) + 1 ≥ (m.len : Int) := by omega
  have hack19 : steps (shiftEnv env 18) 1 (dtxAt m k false .ACK_SCL_CLR) =
      (⟨some m, (k : Int) + 1, .DATA_TX, .tx .ACK_SCL_CLR, false, false⟩,
       [.sclClr], true) := by
    refine steps_last ?_
    simp [tick, state_tx, dtxAt, shiftEnv, hscl, hack, hge]
  have h := steps_seq (dtx_run18 env m k false) hack19
  rw [h, txByteHead_append]

/-- `DATA_TX` byte whose acknowledge slot reads NACK: `count_ = -EIO`
and the machine aborts into the stop sequence. -/
theorem dtx_byte_nack (env : Nat → TickIn) (m : Msg) (k : Nat) (stop : Bool)
    (hscl : (env 18).scl = true) (hnack : (env 18).sda = true) :
    steps env 19 (dtxAt m k stop .DATA_7_SCL_CLR) =
      (stopAt (some m) (-(eio : Int)) stop .SDA_CLR,
       txByteOps (m.buf.getD k 0), false) := by
  have hack19 : steps (shiftEnv env 18) 1 (dtxAt m k stop .ACK_SCL_CLR) =
      (stopAt (some m) (-(eio : Int)) stop .SDA_CLR, [.sclClr], false) := by
    refine steps_last ?_
    simp [tick, state_tx, dtxAt, stopAt, shiftEnv, hscl, hnack, eio]
  have h := steps_seq (dtx_run18 env m k stop) hack19
  rw [h, txByteHead_append]

/-- `ADDRESS` byte of a read message, slave ACKs: enter `DATA_RX`. -/
theorem addr_ack_read (env : Nat → TickIn) (m : Msg) (stop : Bool)
    (hscl : (env 18).scl = true) (hack : (env 18).sda = false)
    (hrd : m.read = true) :
    steps env 19 (addrAt m stop .DATA_7_SCL_CLR) =
      (rxAt m 0 stop .DATA_7_SCL_SET, txByteOps (addressByte m), false) := by
  have hack19 : steps (shiftEnv env 18) 1 (addrAt m stop .ACK_SCL_CLR) =
      (rxAt m 0 stop .DATA_7_SCL_SET, [.sclClr], false) := by
    refine steps_last ?_
    simp [tick, state_tx, addrAt, rxAt, shiftEnv, hscl, hack, hrd]
  have h := steps_seq (addr_run18 env m stop) hack19
  rw [h, txByteHead_append]

/-- `ADDRESS` byte of a write message, slave ACKs: enter `DATA_TX`. -/
theorem addr_ack_write (env : Nat → TickIn) (m : Msg) (stop : Bool)
    (hscl : (env 18).scl = true) (hack : (env 18).sda = false)
    (hwr : m.read = false) :
    steps env 19 (addrAt m stop .DATA_7_SCL_CLR) =
      (dtxAt m 0 stop .DATA_7_SCL_CLR, txByteOps (addressByte m), false) := by
  have hack19 : steps (shiftEnv env 18) 1 (addrAt m stop .ACK_SCL_CLR) =
      (dtxAt m 0 stop .DATA_7_SCL_CLR, [.sclClr], false) := by
    refine steps_last ?_
    simp [tick, state_tx, addrAt, dtxAt, shiftEnv, hscl, hack, hwr]
  have h := steps_seq (addr_run18 env m stop) hack19
  rw [h, txByteHead_append]

/-- `ADDRESS` byte whose acknowledge slot reads NACK: `count_ = -EIO`
and the machine aborts into the stop sequence. -/
theorem addr_nack (env : Nat → TickIn) (m : Msg) (stop : Bool)
    (hscl : (env 18).scl = true) (hnack : (env 18).sda = true) :
    steps env 19 (addrAt m stop .DATA_7_SCL_CLR) =
      (stopAt (some m) (-(eio : Int)) stop .SDA_CLR,
       txByteOps (addressByte m), false) := by
  have hack19 : steps (shiftEnv env 18) 1 (addrAt m stop .ACK_SCL_CLR) =
      (stopAt (some m) (-(eio : Int)) stop .SDA_CLR, [.sclClr], false) := by
    refine steps_last ?_
    simp [tick, state_tx, addrAt, stopAt, shiftEnv, hscl, hnack, eio]
  have h := steps_seq (addr_run18 env m stop) hack19
  rw [h, txByteHead_append]

/-! ### Start and stop sequences -/

/-- The three ticks of the start-condition sub-machine: SDA high, SCL
high, SDA low, then hand over to the `ADDRESS` phase. -/
theorem start_run3 (env : Nat → TickIn) (m : Msg) (stop : Bool) :
    steps env 3 (armedState m stop) =
      (addrAt m stop .DATA_7_SCL_CLR, startOps, false) := by
  have h2 : steps (shiftEnv env 2) 1
      (⟨some m, 0, .START, .start .SDA_CLR, stop, false⟩ : DrvState) =
      (addrAt m stop .DATA_7_SCL_CLR, [.sdaClr], false) := by
    refine steps_last ?_
    simp [tick, state_start, addrAt, StateStart.inc]
  have h1 : steps (shiftEnv env 1) 2
      (⟨some m, 0, .START, .start .SCL_SET, stop, false⟩ : DrvState) =
      (addrAt m stop .DATA_7_SCL_CLR, [.sclSet] ++ [.sdaClr], false) := by
    refine steps_cons ?_ h2
    simp [tick, state_start, StateStart.inc]
  have h0 : steps env 3 (armedState m stop) =
      (addrAt m stop .DATA_7_SCL_CLR, [.sdaSet] ++ ([.sclSet] ++ [.sdaClr]),
       false) := by
    refine steps_cons ?_ h1
    simp [tick, state_start, armedState, StateStart.inc]
  rw [h0]
  simp [startOps]

/-- The three ticks of the stop-condition sub-machine: SDA low, SCL high,
SDA high; the final tick clears `stop_` and exits. -/
theorem stop_run3 (env : Nat → TickIn) (om : Option Msg) (c : Int)
    (stop : Bool) :
    steps env 3 (stopAt om c stop .SDA_CLR) =
      (⟨om, c, .STOP, .stp .SDA_SET, false, false⟩, stopOps, true) := by
  have h2 : steps (shiftEnv env 2) 1 (stopAt om c stop .SDA_SET) =
      ((⟨om, c, .STOP, .stp .SDA_SET, false, false⟩ : DrvState),
       [.sdaSet], true) := by
    refine steps_last ?_
    simp [tick, state_stop, stopAt]
  have h1 : steps (shiftEnv env 1) 2 (stopAt om c stop .SCL_SET) =
      ((⟨om, c, .STOP, .stp .SDA_SET, false, false⟩ : DrvState),
       [.sclSet] ++ [.sdaSet], true) := by
    refine steps_cons ?_ h2
    simp [tick, state_stop, stopAt, StateStop.inc]
  have h0 : steps env 3 (stopAt om c stop .SDA_CLR) =
      ((⟨om, c, .STOP, .stp .SDA_SET, false, false⟩ : DrvState),
       [.sdaClr] ++ ([.sclSet] ++ [.sdaSet]), true) := by
    refine steps_cons ?_ h1
    simp [tick, state_stop, stopAt, StateStop.inc]
  rw [h0]
  simp [stopOps]

/-! ### Receiving one byte -/

/-- Store `d` into byte `k` of the message buffer (the effect of the
`*data` writes of `state_rx`). -/
def msgSet (m : Msg) (k d : Nat) : Msg := {m with buf := m.buf.set k d}

theorem getD_set_self (l : List Nat) (k v : Nat) (h : k < l.length) :
    (l.set k v).getD k 0 = v := by
  simp [List.getD_eq_getElem?_getD, List.getElem?_set_self, h]

theorem msgSet_msgSet (m : Msg) (k d d' : Nat) :
    msgSet (msgSet m k d) k d' = msgSet m k d' := by
  simp [msgSet, List.set_set]

/-- The byte assembled by the eight `state_rx` samples of one received
byte, as a function of the SDA levels at local ticks 1,3,…,15 (`d0` is
the previous content of the buffer cell; it is fully shifted out). -/
def rxSampledByte (env : Nat → TickIn) (d0 : Nat) : Nat :=
  shiftIn (shiftIn (shiftIn (shiftIn (shiftIn (shiftIn (shiftIn (shiftIn d0
    (env 1).sda) (env 3).sda) (env 5).sda) (env 7).sda) (env 9).sda)
    (env 11).sda) (env 13).sda) (env 15).sda

/-- GPIO trace of receiving one byte (18 ticks, no stretching): the
acknowledge slot drives SDA low exactly when `nack` is false. -/
def rxByteOps (nack : Bool) : List GpioOp :=
  [.sdaSet, .sclSet, .sclClr, .sclSet, .sclClr, .sclSet, .sclClr, .sclSet,
   .sclClr, .sclSet, .sclClr, .sclSet, .sclClr, .sclSet, .sclClr, .sclSet] ++
  [.sclClr] ++ (if nack then [] else [.sdaClr]) ++ [.sclSet, .sclClr, .sdaSet]


/-- GPIO trace of the first 15 ticks of a received byte. -/
def rxRun15Ops : List GpioOp :=
  [.sdaSet, .sclSet, .sclClr, .sclSet, .sclClr, .sclSet, .sclClr, .sclSet,
   .sclClr, .sclSet, .sclClr, .sclSet, .sclClr, .sclSet, .sclClr, .sclSet]

/-- The first 15 ticks of a `DATA_RX` byte: release SDA, clock the
eight data bits, sampling bits 7..1 into the buffer cell, ending at
the last-bit sample state `DATA_0_SCL_CLR`. -/
theorem rx_run15 (env : Nat → TickIn) (m : Msg) (k : Nat) (stop : Bool)
    (hscl : ∀ i, (env i).scl = true) (hbuf : k < m.buf.length) :
    steps env 15 (rxAt m k stop .DATA_7_SCL_SET) =
      (rxAt (msgSet m k (shiftIn (shiftIn (shiftIn (shiftIn (shiftIn (shiftIn (shiftIn (m.buf.getD k 0) (env 1).sda) (env 3).sda) (env 5).sda) (env 7).sda) (env 9).sda) (env 11).sda) (env 13).sda)) k stop .DATA_0_SCL_CLR, rxRun15Ops, false) := by
  have hlen : ∀ d, k < (m.buf.set k d).length := fun d => by
    simpa using hbuf
  have t14 : tick ((shiftEnv env 14) 0) (rxAt (msgSet m k (shiftIn (shiftIn (shiftIn (shiftIn (shiftIn (shiftIn (shiftIn (m.buf.getD k 0) (env 1).sda) (env 3).sda) (env 5).sda) (env 7).sda) (env 9).sda) (env 11).sda) (env 13).sda)) k stop .DATA_0_SCL_SET) =
      (rxAt (msgSet m k (shiftIn (shiftIn (shiftIn (shiftIn (shiftIn (shiftIn (shiftIn (m.buf.getD k 0) (env 1).sda) (env 3).sda) (env 5).sda) (env 7).sda) (env 9).sda) (env 11).sda) (env 13).sda)) k stop .DATA_0_SCL_CLR, [.sclSet], false) := by
    simp [tick, state_rx, rxAt, msgSet, shiftEnv, hscl, hbuf,
      StateRx.inc, List.set_set, getD_set_self]
  have h14 : steps (shiftEnv env 14) 1 (rxAt (msgSet m k (shiftIn (shiftIn (shiftIn (shiftIn (shiftIn (shiftIn (shiftIn (m.buf.getD k 0) (env 1).sda) (env 3).sda) (env 5).sda) (env 7).sda) (env 9).sda) (env 11).sda) (env 13).sda)) k stop .DATA_0_SCL_SET) =
      (rxAt (msgSet m k (shiftIn (shiftIn (shiftIn (shiftIn (shiftIn (shiftIn (shiftIn (m.buf.getD k 0) (env 1).sda) (env 3).sda) (env 5).sda) (env 7).sda) (env 9).sda) (env 11).sda) (env 13).sda)) k stop .DATA_0_SCL_CLR, [.sclSet], false) :=
    steps_last t14
  have t13 : tick ((shiftEnv env 13) 0) (rxAt (msgSet m k (shiftIn (shiftIn (shiftIn (shiftIn (shiftIn (shiftIn (m.buf.getD k 0) (env 1).sda) (env 3).sda) (env 5).sda) (env 7).sda) (env 9).sda) (env 11).sda)) k stop .DATA_1_SCL_CLR) =
      (rxAt (msgSet m k (shiftIn (shiftIn (shiftIn (shiftIn (shiftIn (shiftIn (shiftIn (m.buf.getD k 0) (env 1).sda) (env 3).sda) (env 5).sda) (env 7).sda) (env 9).sda) (env 11).sda) (env 13).sda)) k stop .DATA_0_SCL_SET, [.sclClr], false) := by
    simp [tick, state_rx, rxAt, msgSet, shiftEnv, hscl, hbuf,
      StateRx.inc, List.set_set, getD_set_self]
  have h13 : steps (shiftEnv env 13) 2 (rxAt (msgSet m k (shiftIn (shiftIn (shiftIn (shiftIn (shiftIn (shiftIn (m.buf.getD k 0) (env 1).sda) (env 3).sda) (env 5).sda) (env 7).sda) (env 9).sda) (env 11).sda)) k stop .DATA_1_SCL_CLR) =
      (rxAt (msgSet m k (shiftIn (shiftIn (shiftIn (shiftIn (shiftIn (shiftIn (shiftIn (m.buf.getD k 0) (env 1).sda) (env 3).sda) (env 5).sda) (env 7).sda) (env 9).sda) (env 11).sda) (env 13).sda)) k stop .DATA_0_SCL_CLR, [.sclClr] ++ ([.sclSet]), false) :=
    steps_cons t13 h14
  have t12 : tick ((shiftEnv env 12) 0) (rxAt (msgSet m k (shiftIn (shiftIn (shiftIn (shiftIn (shiftIn (shiftIn (m.buf.getD k 0) (env 1).sda) (env 3).sda) (env 5).sda) (env 7).sda) (env 9).sda) (env 11).sda)) k stop .DATA_1_SCL_SET) =
      (rxAt (msgSet m k (shiftIn (shiftIn (shiftIn (shiftIn (shiftIn (shiftIn (m.buf.getD k 0) (env 1).sda) (env 3).sda) (env 5).sda) (env 7).sda) (env 9).sda) (env 11).sda)) k stop .DATA_1_SCL_CLR, [.sclSet], false) := by
    simp [tick, state_rx, rxAt, msgSet, shiftEnv, hscl, hbuf,
      StateRx.inc, List.set_set, getD_set_self]
  have h12 : steps (shiftEnv env 12) 3 (rxAt (msgSet m k (shiftIn (shiftIn (shiftIn (shiftIn (shiftIn (shiftIn (m.buf.getD k 0) (env 1).sda) (env 3).sda) (env 5).sda) (env 7).sda) (env 9).sda) (env 11).sda)) k stop .DATA_1_SCL_SET) =
      (rxAt (msgSet m k (shiftIn (shiftIn (shiftIn (shiftIn (shiftIn (shiftIn (shiftIn (m.buf.getD k 0) (env 1).sda) (env 3).sda) (env 5).sda) (env 7).sda) (env 9).sda) (env 11).sda) (env 13).sda)) k stop .DATA_0_SCL_CLR, [.sclSet] ++ ([.sclClr] ++ ([.sclSet])), false) :=
    steps_cons t12 h13
  have t11 : tick ((shiftEnv env 11) 0) (rxAt (msgSet m k (shiftIn (shiftIn (shiftIn (shiftIn (shiftIn (m.buf.getD k 0) (env 1).sda) (env 3).sda) (env 5).sda) (env 7).sda) (env 9).sda)) k stop .DATA_2_SCL_CLR) =
      (rxAt (msgSet m k (shiftIn (shiftIn (shiftIn (shiftIn (shiftIn (shiftIn (m.buf.getD k 0) (env 1).sda) (env 3).sda) (env 5).sda) (env 7).sda) (env 9).sda) (env 11).sda)) k stop .DATA_1_SCL_SET, [.sclClr], false) := by
    simp [tick, state_rx, rxAt, msgSet, shiftEnv, hscl, hbuf,
      StateRx.inc, List.set_set, getD_set_self]
  have h11 : steps (shiftEnv env 11) 4 (rxAt (msgSet m k (shiftIn (shiftIn (shiftIn (shiftIn (shiftIn (m.buf.getD k 0) (env 1).sda) (env 3).sda) (env 5).sda) (env 7).sda) (env 9).sda)) k stop .DATA_2_SCL_CLR) =
      (rxAt (msgSet m k (shiftIn (shiftIn (shiftIn (shiftIn (shiftIn (shiftIn (shiftIn (m.buf.getD k 0) (env 1).sda) (env 3).sda) (env 5).sda) (env 7).sda) (env 9).sda) (env 11).sda) (env 13).sda)) k stop .DATA_0_SCL_CLR, [.sclClr] ++ ([.sclSet] ++ ([.sclClr] ++ ([.sclSet]))), false) :=
    steps_cons t11 h12
  have t10 : tick ((shiftEnv env 10) 0) (rxAt (msgSet m k (shiftIn (shiftIn (shiftIn (shiftIn (shiftIn (m.buf.getD k 0) (env 1).sda) (env 3).sda) (env 5).sda) (env 7).sda) (env 9).sda)) k stop .DATA_2_SCL_SET) =
      (rxAt (msgSet m k (shiftIn (shiftIn (shiftIn (shiftIn (shiftIn (m.buf.getD k 0) (env 1).sda) (env 3).sda) (env 5).sda) (env 7).sda) (env 9).sda)) k stop .DATA_2_SCL_CLR, [.sclSet], false) := by
    simp [tick, state_rx, rxAt, msgSet, shiftEnv, hscl, hbuf,
      StateRx.inc, List.set_set, getD_set_self]
  have h10 : steps (shiftEnv env 10) 5 (rxAt (msgSet m k (shiftIn (shiftIn (shiftIn (shiftIn (shiftIn (m.buf.getD k 0) (env 1).sda) (env 3).sda) (env 5).sda) (env 7).sda) (env 9).sda)) k stop .DATA_2_SCL_SET) =
      (rxAt (msgSet m k (shiftIn (shiftIn (shiftIn (shiftIn (shiftIn (shiftIn (shiftIn (m.buf.getD k 0) (env 1).sda) (env 3).sda) (env 5).sda) (env 7).sda) (env 9).sda) (env 11).sda) (env 13).sda)) k stop .DATA_0_SCL_CLR, [.sclSet] ++ ([.sclClr] ++ ([.sclSet] ++ ([.sclClr] ++ ([.sclSet])))), false) :=
    steps_cons t10 h11
  have t9 : tick ((shiftEnv env 9) 0) (rxAt (msgSet m k (shiftIn (shiftIn (shiftIn (shiftIn (m.buf.getD k 0) (env 1).sda) (env 3).sda) (env 5).sda) (env 7).sda)) k stop .DATA_3_SCL_CLR) =
      (rxAt (msgSet m k (shiftIn (shiftIn (shiftIn (shiftIn (shiftIn (m.buf.getD k 0) (env 1).sda) (env 3).sda) (env 5).sda) (env 7).sda) (env 9).sda)) k stop .DATA_2_SCL_SET, [.sclClr], false) := by
    simp [tick, state_rx, rxAt, msgSet, shiftEnv, hscl, hbuf,
      StateRx.inc, List.set_set, getD_set_self]
  have h9 : steps (shiftEnv env 9) 6 (rxAt (msgSet m k (shiftIn (shiftIn (shiftIn (shiftIn (m.buf.getD k 0) (env 1).sda) (env 3).sda) (env 5).sda) (env 7).sda)) k stop .DATA_3_SCL_CLR) =
      (rxAt (msgSet m k (shiftIn (shiftIn (shiftIn (shiftIn (shiftIn (shiftIn (shiftIn (m.buf.getD k 0) (env 1).sda) (env 3).sda) (env 5).sda) (env 7).sda) (env 9).sda) (env 11).sda) (env 13).sda)) k stop .DATA_0_SCL_CLR, [.sclClr] ++ ([.sclSet] ++ ([.sclClr] ++ ([.sclSet] ++ ([.sclClr] ++ ([.sclSet]))))), false) :=
    steps_cons t9 h10
  have t8 : tick ((shiftEnv env 8) 0) (rxAt (msgSet m k (shiftIn (shiftIn (shiftIn (shiftIn (m.buf.getD k 0) (env 1).sda) (env 3).sda) (env 5).sda) (env 7).sda)) k stop .DATA_3_SCL_SET) =
      (rxAt (msgSet m k (shiftIn (shiftIn (shiftIn (shiftIn (m.buf.getD k 0) (env 1).sda) (env 3).sda) (env 5).sda) (env 7).sda)) k stop .DATA_3_SCL_CLR, [.sclSet], false) := by
    simp [tick, state_rx, rxAt, msgSet, shiftEnv, hscl, hbuf,
      StateRx.inc, List.set_set, getD_set_self]
  have h8 : steps (shiftEnv env 8) 7 (rxAt (msgSet m k (shiftIn (shiftIn (shiftIn (shiftIn (m.buf.getD k 0) (env 1).sda) (env 3).sda) (env 5).sda) (env 7).sda)) k stop .DATA_3_SCL_SET) =
      (rxAt (msgSet m k (shiftIn (shiftIn (shiftIn (shiftIn (shiftIn (shiftIn (shiftIn (m.buf.getD k 0) (env 1).sda) (env 3).sda) (env 5).sda) (env 7).sda) (env 9).sda) (env 11).sda) (env 13).sda)) k stop .DATA_0_SCL_CLR, [.sclSet] ++ ([.sclClr] ++ ([.sclSet] ++ ([.sclClr] ++ ([.sclSet] ++ ([.sclClr] ++ ([.sclSet])))))), false) :=
    steps_cons t8 h9
  have t7 : tick ((shiftEnv env 7) 0) (rxAt (msgSet m k (shiftIn (shiftIn (shiftIn (m.buf.getD k 0) (env 1).sda) (env 3).sda) (env 5).sda)) k stop .DATA_4_SCL_CLR) =
      (rxAt (msgSet m k (shiftIn (shiftIn (shiftIn (shiftIn (m.buf.getD k 0) (env 1).sda) (env 3).sda) (env 5).sda) (env 7).sda)) k stop .DATA_3_SCL_SET, [.sclClr], false) := by
    simp [tick, state_rx, rxAt, msgSet, shiftEnv, hscl, hbuf,
      StateRx.inc, List.set_set, getD_set_self]
  have h7 : steps (shiftEnv env 7) 8 (rxAt (msgSet m k (shiftIn (shiftIn (shiftIn (m.buf.getD k 0) (env 1).sda) (env 3).sda) (env 5).sda)) k stop .DATA_4_SCL_CLR) =
      (rxAt (msgSet m k (shiftIn (shiftIn (shiftIn (shiftIn (shiftIn (shiftIn (shiftIn (m.buf.getD k 0) (env 1).sda) (env 3).sda) (env 5).sda) (env 7).sda) (env 9).sda) (env 11).sda) (env 13).sda)) k stop .DATA_0_SCL_CLR, [.sclClr] ++ ([.sclSet] ++ ([.sclClr] ++ ([.sclSet] ++ ([.sclClr] ++ ([.sclSet] ++ ([.sclClr] ++ ([.sclSet]))))))), false) :=
    steps_cons t7 h8
  have t6 : tick ((shiftEnv env 6) 0) (rxAt (msgSet m k (shiftIn (shiftIn (shiftIn (m.buf.getD k 0) (env 1).sda) (env 3).sda) (env 5).sda)) k stop .DATA_4_SCL_SET) =
      (rxAt (msgSet m k (shiftIn (shiftIn (shiftIn (m.buf.getD k 0) (env 1).sda) (env 3).sda) (env 5).sda)) k stop .DATA_4_SCL_CLR, [.sclSet], false) := by
    simp [tick, state_rx, rxAt, msgSet, shiftEnv, hscl, hbuf,
      StateRx.inc, List.set_set, getD_set_self]
  have h6 : steps (shiftEnv env 6) 9 (rxAt (msgSet m k (shiftIn (shiftIn (shiftIn (m.buf.getD k 0) (env 1).sda) (env 3).sda) (env 5).sda)) k stop .DATA_4_SCL_SET) =
      (rxAt (msgSet m k (shiftIn (shiftIn (shiftIn (shiftIn (shiftIn (shiftIn (shiftIn (m.buf.getD k 0) (env 1).sda) (env 3).sda) (env 5).sda) (env 7).sda) (env 9).sda) (env 11).sda) (env 13).sda)) k stop .DATA_0_SCL_CLR, [.sclSet] ++ ([.sclClr] ++ ([.sclSet] ++ ([.sclClr] ++ ([.sclSet] ++ ([.sclClr] ++ ([.sclSet] ++ ([.sclClr] ++ ([.sclSet])))))))), false) :=
    steps_cons t6 h7
  have t5 : tick ((shiftEnv env 5) 0) (rxAt (msgSet m k (shiftIn (shiftIn (m.buf.getD k 0) (env 1).sda) (env 3).sda)) k stop .DATA_5_SCL_CLR) =
      (rxAt (msgSet m k (shiftIn (shiftIn (shiftIn (m.buf.getD k 0) (env 1).sda) (env 3).sda) (env 5).sda)) k stop .DATA_4_SCL_SET, [.sclClr], false) := by
    simp [tick, state_rx, rxAt, msgSet, shiftEnv, hscl, hbuf,
      StateRx.inc, List.set_set, getD_set_self]
  have h5 : steps (shiftEnv env 5) 10 (rxAt (msgSet m k (shiftIn (shiftIn (m.buf.getD k 0) (env 1).sda) (env 3).sda)) k stop .DATA_5_SCL_CLR) =
      (rxAt (msgSet m k (shiftIn (shiftIn (shiftIn (shiftIn (shiftIn (shiftIn (shiftIn (m.buf.getD k 0) (env 1).sda) (env 3).sda) (env 5).sda) (env 7).sda) (env 9).sda) (env 11).sda) (env 13).sda)) k stop .DATA_0_SCL_CLR, [.sclClr] ++ ([.sclSet] ++ ([.sclClr] ++ ([.sclSet] ++ ([.sclClr] ++ ([.sclSet] ++ ([.sclClr] ++ ([.sclSet] ++ ([.sclClr] ++ ([.sclSet]))))))))), false) :=
    steps_cons t5 h6
  have t4 : tick ((shiftEnv env 4) 0) (rxAt (msgSet m k (shiftIn (shiftIn (m.buf.getD k 0) (env 1).sda) (env 3).sda)) k stop .DATA_5_SCL_SET) =
      (rxAt (msgSet m k (shiftIn (shiftIn (m.buf.getD k 0) (env 1).sda) (env 3).sda)) k stop .DATA_5_SCL_CLR, [.sclSet], false) := by
    simp [tick, state_rx, rxAt, msgSet, shiftEnv, hscl, hbuf,
      StateRx.inc, List.set_set, getD_set_self]
  have h4 : steps (shiftEnv env 4) 11 (rxAt (msgSet m k (shiftIn (shiftIn (m.buf.getD k 0) (env 1).sda) (env 3).sda)) k stop .DATA_5_SCL_SET) =
      (rxAt (msgSet m k (shiftIn (shiftIn (shiftIn (shiftIn (shiftIn (shiftIn (shiftIn (m.buf.getD k 0) (env 1).sda) (env 3).sda) (env 5).sda) (env 7).sda) (env 9).sda) (env 11).sda) (env 13).sda)) k stop .DATA_0_SCL_CLR, [.sclSet] ++ ([.sclClr] ++ ([.sclSet] ++ ([.sclClr] ++ ([.sclSet] ++ ([.sclClr] ++ ([.sclSet] ++ ([.sclClr] ++ ([.sclSet] ++ ([.sclClr] ++ ([.sclSet])))))))))), false) :=
    steps_cons t4 h5
  have t3 : tick ((shiftEnv env 3) 0) (rxAt (msgSet m k (shiftIn (m.buf.getD k 0) (env 1).sda)) k stop .DATA_6_SCL_CLR) =
      (rxAt (msgSet m k (shiftIn (shiftIn (m.buf.getD k 0) (env 1).sda) (env 3).sda)) k stop .DATA_5_SCL_SET, [.sclClr], false) := by
    simp [tick, state_rx, rxAt, msgSet, shiftEnv, hscl, hbuf,
      StateRx.inc, List.set_set, getD_set_self]
  have h3 : steps (shiftEnv env 3) 12 (rxAt (msgSet m k (shiftIn (m.buf.getD k 0) (env 1).sda)) k stop .DATA_6_SCL_CLR) =
      (rxAt (msgSet m k (shiftIn (shiftIn (shiftIn (shiftIn (shiftIn (shiftIn (shiftIn (m.buf.getD k 0) (env 1).sda) (env 3).sda) (env 5).sda) (env 7).sda) (env 9).sda) (env 11).sda) (env 13).sda)) k stop .DATA_0_SCL_CLR, [.sclClr] ++ ([.sclSet] ++ ([.sclClr] ++ ([.sclSet] ++ ([.sclClr] ++ ([.sclSet] ++ ([.sclClr] ++ ([.sclSet] ++ ([.sclClr] ++ ([.sclSet] ++ ([.sclClr] ++ ([.sclSet]))))))))))), false) :=
    steps_cons t3 h4
  have t2 : tick ((shiftEnv env 2) 0) (rxAt (msgSet m k (shiftIn (m.buf.getD k 0) (env 1).sda)) k stop .DATA_6_SCL_SET) =
      (rxAt (msgSet m k (shiftIn (m.buf.getD k 0) (env 1).sda)) k stop .DATA_6_SCL_CLR, [.sclSet], false) := by
    simp [tick, state_rx, rxAt, msgSet, shiftEnv, hscl, hbuf,
      StateRx.inc, List.set_set, getD_set_self]
  have h2 : steps (shiftEnv env 2) 13 (rxAt (msgSet m k (shiftIn (m.buf.getD k 0) (env 1).sda)) k stop .DATA_6_SCL_SET) =
      (rxAt (msgSet m k (shiftIn (shiftIn (shiftIn (shiftIn (shiftIn (shiftIn (shiftIn (m.buf.getD k 0) (env 1).sda) (env 3).sda) (env 5).sda) (env 7).sda) (env 9).sda) (env 11).sda) (env 13).sda)) k stop .DATA_0_SCL_CLR, [.sclSet] ++ ([.sclClr] ++ ([.sclSet] ++ ([.sclClr] ++ ([.sclSet] ++ ([.sclClr] ++ ([.sclSet] ++ ([.sclClr] ++ ([.sclSet] ++ ([.sclClr] ++ ([.sclSet] ++ ([.sclClr] ++ ([.sclSet])))))))))))), false) :=
    steps_cons t2 h3
  have t1 : tick ((shiftEnv env 1) 0) (rxAt m k stop .DATA_7_SCL_CLR) =
      (rxAt (msgSet m k (shiftIn (m.buf.getD k 0) (env 1).sda)) k stop .DATA_6_SCL_SET, [.sclClr], false) := by
    simp [tick, state_rx, rxAt, msgSet, shiftEnv, hscl, hbuf,
      StateRx.inc, List.set_set, getD_set_self]
  have h1 : steps (shiftEnv env 1) 14 (rxAt m k stop .DATA_7_SCL_CLR) =
      (rxAt (msgSet m k (shiftIn (shiftIn (shiftIn (shiftIn (shiftIn (shiftIn (shiftIn (m.buf.getD k 0) (env 1).sda) (env 3).sda) (env 5).sda) (env 7).sda) (env 9).sda) (env 11).sda) (env 13).sda)) k stop .DATA_0_SCL_CLR, [.sclClr] ++ ([.sclSet] ++ ([.sclClr] ++ ([.sclSet] ++ ([.sclClr] ++ ([.sclSet] ++ ([.sclClr] ++ ([.sclSet] ++ ([.sclClr] ++ ([.sclSet] ++ ([.sclClr] ++ ([.sclSet] ++ ([.sclClr] ++ ([.sclSet]))))))))))))), false) :=
    steps_cons t1 h2
  have t0 : tick ((shiftEnv env 0) 0) (rxAt m k stop .DATA_7_SCL_SET) =
      (rxAt m k stop .DATA_7_SCL_CLR, [.sdaSet, .sclSet], false) := by
    simp [tick, state_rx, rxAt, msgSet, shiftEnv, hscl, hbuf,
      StateRx.inc, List.set_set, getD_set_self]
  have h0 : steps (shiftEnv env 0) 15 (rxAt m k stop .DATA_7_SCL_SET) =
      (rxAt (msgSet m k (shiftIn (shiftIn (shiftIn (shiftIn (shiftIn (shiftIn (shiftIn (m.buf.getD k 0) (env 1).sda) (env 3).sda) (env 5).sda) (env 7).sda) (env 9).sda) (env 11).sda) (env 13).sda)) k stop .DATA_0_SCL_CLR, [.sdaSet, .sclSet] ++ ([.sclClr] ++ ([.sclSet] ++ ([.sclClr] ++ ([.sclSet] ++ ([.sclClr] ++ ([.sclSet] ++ ([.sclClr] ++ ([.sclSet] ++ ([.sclClr] ++ ([.sclSet] ++ ([.sclClr] ++ ([.sclSet] ++ ([.sclClr] ++ ([.sclSet])))))))))))))), false) :=
    steps_cons t0 h1
  have h := h0
  rw [shiftEnv_zero] at h
  rw [h]
  simp [rxRun15Ops]

/-- Ticks 16–18 of a received byte when more bytes follow: sample the
last bit, drive the master ACK (SDA low) in the acknowledge slot, clock
the slot, advance to the next byte. -/
theorem rx_tail3_cont (env : Nat → TickIn) (m' : Msg) (k : Nat) (stop : Bool)
    (hscl : ∀ i, (env i).scl = true)
    (hlt : (k : Int) + 1 < (m'.len : Int)) :
    steps env 3 (rxAt m' k stop .DATA_0_SCL_CLR) =
      (rxAt (msgSet m' k (shiftIn (m'.buf.getD k 0) (env 0).sda)) (k + 1)
        stop .DATA_7_SCL_SET,
       [.sclClr, .sdaClr] ++ ([.sclSet] ++ [.sclClr, .sdaSet]), false) := by
  have hnack : ¬((k : Int) + 1 ≥ (m'.len : Int)) := by omega
  have t2 : tick ((shiftEnv env 2) 0)
      (rxAt (msgSet m' k (shiftIn (m'.buf.getD k 0) (env 0).sda)) k stop
        .ACK_SCL_CLR) =
      (rxAt (msgSet m' k (shiftIn (m'.buf.getD k 0) (env 0).sda)) (k + 1)
        stop .DATA_7_SCL_SET, [.sclClr, .sdaSet], false) := by
    simp [tick, state_rx, rxAt, msgSet, shiftEnv, hscl, hnack, StateRx.inc]
  have h2 := steps_last t2
  have t1 : tick ((shiftEnv env 1) 0)
      (rxAt (msgSet m' k (shiftIn (m'.buf.getD k 0) (env 0).sda)) k stop
        .ACK_SDA_SCL_SET) =
      (rxAt (msgSet m' k (shiftIn (m'.buf.getD k 0) (env 0).sda)) k stop
        .ACK_SCL_CLR, [.sclSet], false) := by
    simp [tick, state_rx, rxAt, msgSet, shiftEnv, hscl, StateRx.inc]
  have h1 := steps_cons t1 h2
  have t0 : tick (env 0) (rxAt m' k stop .DATA_0_SCL_CLR) =
      (rxAt (msgSet m' k (shiftIn (m'.buf.getD k 0) (env 0).sda)) k stop
        .ACK_SDA_SCL_SET, [.sclClr, .sdaClr], false) := by
    simp [tick, state_rx, rxAt, msgSet, hscl, hnack, StateRx.inc]
  have h0 := steps_cons t0 h1
  simpa using h0

/-- Ticks 16–18 of the final received byte with a stop requested: sample
the last bit, leave SDA released (master NACK), clock the slot, move to
the stop sequence with `count_ = len`. -/
theorem rx_tail3_last_stop (env : Nat → TickIn) (m' : Msg) (k : Nat)
    (hscl : ∀ i, (env i).scl = true)
    (hlast : (k : Int) + 1 ≥ (m'.len : Int)) :
    steps env 3 (rxAt m' k true .DATA_0_SCL_CLR) =
      (stopAt (some (msgSet m' k (shiftIn (m'.buf.getD k 0) (env 0).sda)))
        ((k : Int) + 1) true .SDA_CLR,
       [.sclClr] ++ ([.sclSet] ++ [.sclClr, .sdaSet]), false) := by
  have t2 : tick ((shiftEnv env 2) 0)
      (rxAt (msgSet m' k (shiftIn (m'.buf.getD k 0) (env 0).sda)) k true
        .ACK_SCL_CLR) =
      (stopAt (some (msgSet m' k (shiftIn (m'.buf.getD k 0) (env 0).sda)))
        ((k : Int) + 1) true .SDA_CLR, [.sclClr, .sdaSet], false) := by
    simp [tick, state_rx, rxAt, stopAt, msgSet, shiftEnv, hscl, hlast,
      StateRx.inc]
  have h2 := steps_last t2
  have t1 : tick ((shiftEnv env 1) 0)
      (rxAt (msgSet m' k (shiftIn (m'.buf.getD k 0) (env 0).sda)) k true
        .ACK_SDA_SCL_SET) =
      (rxAt (msgSet m' k (shiftIn (m'.buf.getD k 0) (env 0).sda)) k true
        .ACK_SCL_CLR, [.sclSet], false) := by
    simp [tick, state_rx, rxAt, msgSet, shiftEnv, hscl, StateRx.inc]
  have h1 := steps_cons t1 h2
  have t0 : tick (env 0) (rxAt m' k true .DATA_0_SCL_CLR) =
      (rxAt (msgSet m' k (shiftIn (m'.buf.getD k 0) (env 0).sda)) k true
        .ACK_SDA_SCL_SET, [.sclClr], false) := by
    simp [tick, state_rx, rxAt, msgSet, hscl, hlast, StateRx.inc]
  have h0 := steps_cons t0 h1
  simpa using h0

/-- Ticks 16–18 of the final received byte with no stop requested: as
above but the last tick exits directly with `count_ = len`. -/
theorem rx_tail3_last_nostop (env : Nat → TickIn) (m' : Msg) (k : Nat)
    (hscl : ∀ i, (env i).scl = true)
    (hlast : (k : Int) + 1 ≥ (m'.len : Int)) :
    steps env 3 (rxAt m' k false .DATA_0_SCL_CLR) =
      (⟨some (msgSet m' k (shiftIn (m'.buf.getD k 0) (env 0).sda)),
        (k : Int) + 1, .DATA_RX, .rx .ACK_SCL_CLR, false, false⟩,
       [.sclClr] ++ ([.sclSet] ++ [.sclClr, .sdaSet]), true) := by
  have t2 : tick ((shiftEnv env 2) 0)
      (rxAt (msgSet m' k (shiftIn (m'.buf.getD k 0) (env 0).sda)) k false
        .ACK_SCL_CLR) =
      ((⟨some (msgSet m' k (shiftIn (m'.buf.getD k 0) (env 0).sda)),
        (k : Int) + 1, .DATA_RX, .rx .ACK_SCL_CLR, false, false⟩ : DrvState),
       [.sclClr, .sdaSet], true) := by
    simp [tick, state_rx, rxAt, msgSet, shiftEnv, hscl, hlast, StateRx.inc]
  have h2 := steps_last t2
  have t1 : tick ((shiftEnv env 1) 0)
      (rxAt (msgSet m' k (shiftIn (m'.buf.getD k 0) (env 0).sda)) k false
        .ACK_SDA_SCL_SET) =
      (rxAt (msgSet m' k (shiftIn (m'.buf.getD k 0) (env 0).sda)) k false
        .ACK_SCL_CLR, [.sclSet], false) := by
    simp [tick, state_rx, rxAt, msgSet, shiftEnv, hscl, StateRx.inc]
  have h1 := steps_cons t1 h2
  have t0 : tick (env 0) (rxAt m' k false .DATA_0_SCL_CLR) =
      (rxAt (msgSet m' k (shiftIn (m'.buf.getD k 0) (env 0).sda)) k false
        .ACK_SDA_SCL_SET, [.sclClr], false) := by
    simp [tick, state_rx, rxAt, msgSet, hscl, hlast, StateRx.inc]
  have h0 := steps_cons t0 h1
  simpa using h0

/-- One full received byte, more bytes to come: 18 ticks, master ACKs,
buffer cell `k` receives the sampled byte, advance to byte `k + 1`. -/
theorem rx_byte_cont (env : Nat → TickIn) (m : Msg) (k : Nat) (stop : Bool)
    (hscl : ∀ i, (env i).scl = true) (hbuf : k < m.buf.length)
    (hlt : (k : Int) + 1 < (m.len : Int)) :
    steps env 18 (rxAt m k stop .DATA_7_SCL_SET) =
      (rxAt (msgSet m k (rxSampledByte env (m.buf.getD k 0))) (k + 1) stop
        .DATA_7_SCL_SET, rxByteOps false, false) := by
  have h1 := rx_run15 env m k stop hscl hbuf
  have hscl' : ∀ i, ((shiftEnv env 15) i).scl = true := fun i => hscl (i + 15)
  have hlt' : (k : Int) + 1 <
      ((msgSet m k (shiftIn (shiftIn (shiftIn (shiftIn (shiftIn (shiftIn
        (shiftIn (m.buf.getD k 0) (env 1).sda) (env 3).sda) (env 5).sda)
        (env 7).sda) (env 9).sda) (env 11).sda) (env 13).sda)).len : Int) := by
    simpa [msgSet] using hlt
  have h2 := rx_tail3_cont (shiftEnv env 15) _ k stop hscl' hlt'
  have h := steps_seq h1 h2
  rw [h]
  simp [msgSet_msgSet, msgSet, getD_set_self, hbuf, rxSampledByte,
    rxByteOps, rxRun15Ops, shiftEnv, List.set_set]

/-- The final received byte with a stop requested: 18 ticks, master
NACKs, then move to the stop sequence with `count_ = len`. -/
theorem rx_byte_last_stop (env : Nat → TickIn) (m : Msg) (k : Nat)
    (hscl : ∀ i, (env i).scl = true) (hbuf : k < m.buf.length)
    (hlast : (k : Int) + 1 ≥ (m.len : Int)) :
    steps env 18 (rxAt m k true .DATA_7_SCL_SET) =
      (stopAt (some (msgSet m k (rxSampledByte env (m.buf.getD k 0))))
        ((k : Int) + 1) true .SDA_CLR, rxByteOps true, false) := by
  have h1 := rx_run15 env m k true hscl hbuf
  have hscl' : ∀ i, ((shiftEnv env 15) i).scl = true := fun i => hscl (i + 15)
  have hlast' : (k : Int) + 1 ≥
      ((msgSet m k (shiftIn (shiftIn (shiftIn (shiftIn (shiftIn (shiftIn
        (shiftIn (m.buf.getD k 0) (env 1).sda) (env 3).sda) (env 5).sda)
        (env 7).sda) (env 9).sda) (env 11).sda) (env 13).sda)).len : Int) := by
    simpa [msgSet] using hlast
  have h2 := rx_tail3_last_stop (shiftEnv env 15) _ k hscl' hlast'
  have h := steps_seq h1 h2
  rw [h]
  simp [msgSet_msgSet, msgSet, getD_set_self, hbuf, rxSampledByte,
    rxByteOps, rxRun15Ops, shiftEnv, List.set_set]

/-- The final received byte with no stop requested: 18 ticks, master
NACKs, terminal completion with `count_ = len`. -/
theorem rx_byte_last_nostop (env : Nat → TickIn) (m : Msg) (k : Nat)
    (hscl : ∀ i, (env i).scl = true) (hbuf : k < m.buf.length)
    (hlast : (k : Int) + 1 ≥ (m.len : Int)) :
    steps env 18 (rxAt m k false .DATA_7_SCL_SET) =
      (⟨some (msgSet m k (rxSampledByte env (m.buf.getD k 0))),
        (k : Int) + 1, .DATA_RX, .rx .ACK_SCL_CLR, false, false⟩,
       rxByteOps true, true) := by
  have h1 := rx_run15 env m k false hscl hbuf
  have hscl' : ∀ i, ((shiftEnv env 15) i).scl = true := fun i => hscl (i + 15)
  have hlast' : (k : Int) + 1 ≥
      ((msgSet m k (shiftIn (shiftIn (shiftIn (shiftIn (shiftIn (shiftIn
        (shiftIn (m.buf.getD k 0) (env 1).sda) (env 3).sda) (env 5).sda)
        (env 7).sda) (env 9).sda) (env 11).sda) (env 13).sda)).len : Int) := by
    simpa [msgSet] using hlast
  have h2 := rx_tail3_last_nostop (shiftEnv env 15) _ k hscl' hlast'
  have h := steps_seq h1 h2
  rw [h]
  simp [msgSet_msgSet, msgSet, getD_set_self, hbuf, rxSampledByte,
    rxByteOps, rxRun15Ops, shiftEnv, List.set_set]

/-! ### Whole data phases -/

/-- GPIO trace of transmitting bytes `k, k+1, …` of `m` (`r` bytes). -/
def txPhaseOps (m : Msg) (k : Nat) : Nat → List GpioOp
  | 0 => []
  | r + 1 => txByteOps (m.buf.getD k 0) ++ txPhaseOps m (k + 1) r

/-- GPIO trace of receiving `r` bytes: the master ACKs every byte except
the last, which it NACKs. -/
def rxPhaseOps : Nat → List GpioOp
  | 0 => []
  | 1 => rxByteOps true
  | r + 2 => rxByteOps false ++ rxPhaseOps (r + 1)

/-- Buffer contents after receiving `r` bytes into cells `k, k+1, …`,
each assembled from the SDA samples of its 18-tick window. -/
def rxFill (env : Nat → TickIn) (k : Nat) : Nat → List Nat → List Nat
  | 0, buf => buf
  | r + 1, buf =>
      rxFill (shiftEnv env 18) (k + 1) r
        (buf.set k (rxSampledByte env (buf.getD k 0)))

/-- The transmit data phase, stop requested: bytes `k…len-1` are sent
and ACKed, then the stop sequence runs and the machine exits with
`count_ = len`. -/
theorem dtx_phase_stop (env : Nat → TickIn) (m : Msg) (k r : Nat)
    (hr : 1 ≤ r) (hk : k + r = m.len)
    (hscl : ∀ j, (env (19 * j + 18)).scl = true)
    (hack : ∀ j, (env (19 * j + 18)).sda = false) :
    steps env (19 * r + 3) (dtxAt m k true .DATA_7_SCL_CLR) =
      (⟨some m, (m.len : Int), .STOP, .stp .SDA_SET, false, false⟩,
       txPhaseOps m k r ++ stopOps, true) := by
  induction r generalizing env k with
  | zero => omega
  | succ r' ih =>
      rcases Nat.eq_zero_or_pos r' with h0 | hpos
      · subst h0
        have hlast : (k : Int) + 1 = (m.len : Int) := by
          have : k + 1 = m.len := by omega
          omega
        have h1 := dtx_byte_last_stop env m k (hscl 0)
          (by simpa using hack 0) hlast
        have h2 := stop_run3 (shiftEnv env 19) (some m) ((k : Int) + 1) true
        have h := steps_seq h1 h2
        have e : 19 * 1 + 3 = 19 + 3 := by norm_num
        rw [e, h, hlast]
        simp [txPhaseOps]
      · have hlt : (k : Int) + 1 < (m.len : Int) := by omega
        have h1 := dtx_byte_cont env m k true (hscl 0)
          (by simpa using hack 0) hlt
        have hscl' : ∀ j, ((shiftEnv env 19) (19 * j + 18)).scl = true := by
          intro j
          have e : 19 * j + 18 + 19 = 19 * (j + 1) + 18 := by ring
          simpa [shiftEnv, e] using hscl (j + 1)
        have hack' : ∀ j, ((shiftEnv env 19) (19 * j + 18)).sda = false := by
          intro j
          have e : 19 * j + 18 + 19 = 19 * (j + 1) + 18 := by ring
          simpa [shiftEnv, e] using hack (j + 1)
        have h2 := ih (shiftEnv env 19) (k + 1) hpos (by omega) hscl' hack'
        have h := steps_seq h1 h2
        have e : 19 * (r' + 1) + 3 = 19 + (19 * r' + 3) := by ring
        rw [e, h]
        rcases r' with _ | r''
        · omega
        · simp [txPhaseOps, List.append_assoc]

/-- The transmit data phase, no stop requested: bytes `k…len-1` are sent
and ACKed, then the machine exits directly with `count_ = len`. -/
theorem dtx_phase_nostop (env : Nat → TickIn) (m : Msg) (k r : Nat)
    (hr : 1 ≤ r) (hk : k + r = m.len)
    (hscl : ∀ j, (env (19 * j + 18)).scl = true)
    (hack : ∀ j, (env (19 * j + 18)).sda = false) :
    steps env (19 * r) (dtxAt m k false .DATA_7_SCL_CLR) =
      (⟨some m, (m.len : Int), .DATA_TX, .tx .ACK_SCL_CLR, false, false⟩,
       txPhaseOps m k r, true) := by
  induction r generalizing env k with
  | zero => omega
  | succ r' ih =>
      rcases Nat.eq_zero_or_pos r' with h0 | hpos
      · subst h0
        have hlast : (k : Int) + 1 = (m.len : Int) := by omega
        have h1 := dtx_byte_last_nostop env m k (hscl 0)
          (by simpa using hack 0) hlast
        have e : 19 * 1 = 19 := by norm_num
        rw [e, h1, hlast]
        simp [txPhaseOps]
      · have hlt : (k : Int) + 1 < (m.len : Int) := by omega
        have h1 := dtx_byte_cont env m k false (hscl 0)
          (by simpa using hack 0) hlt
        have hscl' : ∀ j, ((shiftEnv env 19) (19 * j + 18)).scl = true := by
          intro j
          have e : 19 * j + 18 + 19 = 19 * (j + 1) + 18 := by ring
          simpa [shiftEnv, e] using hscl (j + 1)
        have hack' : ∀ j, ((shiftEnv env 19) (19 * j + 18)).sda = false := by
          intro j
          have e : 19 * j + 18 + 19 = 19 * (j + 1) + 18 := by ring
          simpa [shiftEnv, e] using hack (j + 1)
        have h2 := ih (shiftEnv env 19) (k + 1) hpos (by omega) hscl' hack'
        have h := steps_seq h1 h2
        have e : 19 * (r' + 1) = 19 + 19 * r' := by ring
        rw [e, h]
        rcases r' with _ | r''
        · omega
        · simp [txPhaseOps, List.append_assoc]

/-- The receive data phase, stop requested: bytes `k…len-1` are received
(ACK on all but the last, NACK on the last), the stop sequence runs, and
the machine exits with `count_ = len` and the sampled bytes stored. -/
theorem rx_phase_stop (env : Nat → TickIn) (m : Msg) (k r : Nat)
    (hr : 1 ≤ r) (hk : k + r = m.len)
    (hscl : ∀ i, (env i).scl = true)
    (hbuf : m.len ≤ m.buf.length) :
    steps env (18 * r + 3) (rxAt m k true .DATA_7_SCL_SET) =
      (⟨some {m with buf := rxFill env k r m.buf}, (m.len : Int), .STOP,
        .stp .SDA_SET, false, false⟩,
       rxPhaseOps r ++ stopOps, true) := by
  induction r generalizing env k m with
  | zero => omega
  | succ r' ih =>
      have hbk : k < m.buf.length := by omega
      rcases Nat.eq_zero_or_pos r' with h0 | hpos
      · subst h0
        have hlast : (k : Int) + 1 ≥ (m.len : Int) := by omega
        have h1 := rx_byte_last_stop env m k hscl hbk hlast
        have h2 := stop_run3 (shiftEnv env 18)
          (some (msgSet m k (rxSampledByte env (m.buf.getD k 0))))
          ((k : Int) + 1) true
        have h := steps_seq h1 h2
        have e : 18 * 1 + 3 = 18 + 3 := by norm_num
        rw [e, h]
        have hc : (k : Int) + 1 = (m.len : Int) := by omega
        rw [hc]
        simp [rxPhaseOps, rxFill, msgSet]
      · have hlt : (k : Int) + 1 < (m.len : Int) := by omega
        have h1 := rx_byte_cont env m k true hscl hbk hlt
        have hscl' : ∀ i, ((shiftEnv env 18) i).scl = true :=
          fun i => hscl (i + 18)
        have h2 := ih (shiftEnv env 18)
          (msgSet m k (rxSampledByte env (m.buf.getD k 0))) (k + 1) hpos
          (by simp [msgSet]; omega) hscl' (by simpa [msgSet] using hbuf)
        have h := steps_seq h1 h2
        have e : 18 * (r' + 1) + 3 = 18 + (18 * r' + 3) := by ring
        rw [e, h]
        rcases r' with _ | r''
        · omega
        · simp only [msgSet, rxFill, rxPhaseOps, List.append_assoc]

/-- The receive data phase, no stop requested: as `rx_phase_stop` but the
final byte's last tick exits directly. -/
theorem rx_phase_nostop (env : Nat → TickIn) (m : Msg) (k r : Nat)
    (hr : 1 ≤ r) (hk : k + r = m.len)
    (hscl : ∀ i, (env i).scl = true)
    (hbuf : m.len ≤ m.buf.length) :
    steps env (18 * r) (rxAt m k false .DATA_7_SCL_SET) =
      (⟨some {m with buf := rxFill env k r m.buf}, (m.len : Int), .DATA_RX,
        .rx .ACK_SCL_CLR, false, false⟩,
       rxPhaseOps r, true) := by
  induction r generalizing env k m with
  | zero => omega
  | succ r' ih =>
      have hbk : k < m.buf.length := by omega
      rcases Nat.eq_zero_or_pos r' with h0 | hpos
      · subst h0
        have hlast : (k : Int) + 1 ≥ (m.len : Int) := by omega
        have h1 := rx_byte_last_nostop env m k hscl hbk hlast
        have e : 18 * 1 = 18 := by norm_num
        rw [e, h1]
        have hc : (k : Int) + 1 = (m.len : Int) := by omega
        rw [hc]
        simp [rxPhaseOps, rxFill, msgSet]
      · have hlt : (k : Int) + 1 < (m.len : Int) := by omega
        have h1 := rx_byte_cont env m k false hscl hbk hlt
        have hscl' : ∀ i, ((shiftEnv env 18) i).scl = true :=
          fun i => hscl (i + 18)
        have h2 := ih (shiftEnv env 18)
          (msgSet m k (rxSampledByte env (m.buf.getD k 0))) (k + 1) hpos
          (by simp [msgSet]; omega) hscl' (by simpa [msgSet] using hbuf)
        have h := steps_seq h1 h2
        have e : 18 * (r' + 1) = 18 + 18 * r' := by ring
        rw [e, h]
        rcases r' with _ | r''
        · omega
        · simp only [msgSet, rxFill, rxPhaseOps, List.append_assoc]

/-! ### Whole transfers -/

/-- Complete error-free write transfer with stop: the run exits after
`25 + 19*len` ticks with `count_ = len`, having emitted start, address
byte, data bytes and stop. -/
theorem write_run_stop (env : Nat → TickIn) (m : Msg)
    (hlen : 1 ≤ m.len) (hwr : m.read = false)
    (hscl : ∀ i, (env i).scl = true)
    (hack : ∀ j, (env (21 + 19 * j)).sda = false) :
    steps env (25 + 19 * m.len) (armedState m true) =
      (⟨some m, (m.len : Int), .STOP, .stp .SDA_SET, false, false⟩,
       startOps ++ (txByteOps (addressByte m) ++
         (txPhaseOps m 0 m.len ++ stopOps)), true) := by
  have h1 := start_run3 env m true
  have h2 := addr_ack_write (shiftEnv env 3) m true (hscl 21) (hack 0) hwr
  have hsclP : ∀ j, ((shiftEnv env 22) (19 * j + 18)).scl = true :=
    fun j => hscl (19 * j + 18 + 22)
  have hackP : ∀ j, ((shiftEnv env 22) (19 * j + 18)).sda = false := by
    intro j
    show (env (19 * j + 18 + 22)).sda = false
    have e : 19 * j + 18 + 22 = 21 + 19 * (j + 1) := by ring
    rw [e]
    exact hack (j + 1)
  have h3 := dtx_phase_stop (shiftEnv env 22) m 0 m.len hlen (by omega)
    hsclP hackP
  have h23 := steps_seq h2 h3
  have h := steps_seq h1 h23
  have e : 25 + 19 * m.len = 3 + (19 + (19 * m.len + 3)) := by ring
  rw [e, h]

/-- Complete error-free write transfer without stop. -/
theorem write_run_nostop (env : Nat → TickIn) (m : Msg)
    (hlen : 1 ≤ m.len) (hwr : m.read = false)
    (hscl : ∀ i, (env i).scl = true)
    (hack : ∀ j, (env (21 + 19 * j)).sda = false) :
    steps env (22 + 19 * m.len) (armedState m false) =
      (⟨some m, (m.len : Int), .DATA_TX, .tx .ACK_SCL_CLR, false, false⟩,
       startOps ++ (txByteOps (addressByte m) ++ txPhaseOps m 0 m.len),
       true) := by
  have h1 := start_run3 env m false
  have h2 := addr_ack_write (shiftEnv env 3) m false (hscl 21) (hack 0) hwr
  have hsclP : ∀ j, ((shiftEnv env 22) (19 * j + 18)).scl = true :=
    fun j => hscl (19 * j + 18 + 22)
  have hackP : ∀ j, ((shiftEnv env 22) (19 * j + 18)).sda = false := by
    intro j
    show (env (19 * j + 18 + 22)).sda = false
    have e : 19 * j + 18 + 22 = 21 + 19 * (j + 1) := by ring
    rw [e]
    exact hack (j + 1)
  have h3 := dtx_phase_nostop (shiftEnv env 22) m 0 m.len hlen (by omega)
    hsclP hackP
  have h23 := steps_seq h2 h3
  have h := steps_seq h1 h23
  have e : 22 + 19 * m.len = 3 + (19 + 19 * m.len) := by ring
  rw [e, h]

/-- Complete error-free read transfer with stop: the run exits after
`25 + 18*len` ticks with `count_ = len`, the master ACKing every byte
but the last and storing the sampled bytes. -/
theorem read_run_stop (env : Nat → TickIn) (m : Msg)
    (hlen : 1 ≤ m.len) (hrd : m.read = true)
    (hbuf : m.len ≤ m.buf.length)
    (hscl : ∀ i, (env i).scl = true)
    (hack : (env 21).sda = false) :
    steps env (25 + 18 * m.len) (armedState m true) =
      (⟨some {m with buf := rxFill (shiftEnv env 22) 0 m.len m.buf},
        (m.len : Int), .STOP, .stp .SDA_SET, false, false⟩,
       startOps ++ (txByteOps (addressByte m) ++
         (rxPhaseOps m.len ++ stopOps)), true) := by
  have h1 := start_run3 env m true
  have h2 := addr_ack_read (shiftEnv env 3) m true (hscl 21) hack hrd
  have hsclP : ∀ i, ((shiftEnv env 22) i).scl = true :=
    fun i => hscl (i + 22)
  have h3 := rx_phase_stop (shiftEnv env 22) m 0 m.len hlen (by omega)
    hsclP hbuf
  have h23 := steps_seq h2 h3
  have h := steps_seq h1 h23
  have e : 25 + 18 * m.len = 3 + (19 + (18 * m.len + 3)) := by ring
  rw [e, h]

/-- Complete error-free read transfer without stop. -/
theorem read_run_nostop (env : Nat → TickIn) (m : Msg)
    (hlen : 1 ≤ m.len) (hrd : m.read = true)
    (hbuf : m.len ≤ m.buf.length)
    (hscl : ∀ i, (env i).scl = true)
    (hack : (env 21).sda = false) :
    steps env (22 + 18 * m.len) (armedState m false) =
      (⟨some {m with buf := rxFill (shiftEnv env 22) 0 m.len m.buf},
        (m.len : Int), .DATA_RX, .rx .ACK_SCL_CLR, false, false⟩,
       startOps ++ (txByteOps (addressByte m) ++ rxPhaseOps m.len),
       true) := by
  have h1 := start_run3 env m false
  have h2 := addr_ack_read (shiftEnv env 3) m false (hscl 21) hack hrd
  have hsclP : ∀ i, ((shiftEnv env 22) i).scl = true :=
    fun i => hscl (i + 22)
  have h3 := rx_phase_nostop (shiftEnv env 22) m 0 m.len hlen (by omega)
    hsclP hbuf
  have h23 := steps_seq h2 h3
  have h := steps_seq h1 h23
  have e : 22 + 18 * m.len = 3 + (19 + 18 * m.len) := by ring
  rw [e, h]

/-! ### Bit-level helper lemmas -/

theorem and_two_pow_eq (b t : Nat) :
    b &&& 2 ^ t = if b.testBit t then 2 ^ t else 0 := by
  apply Nat.eq_of_testBit_eq
  intro i
  by_cases hb : b.testBit t
  · by_cases hi : t = i <;>
      simp [Nat.testBit_and, Nat.testBit_two_pow, hb, hi]
    · subst hi; simp [hb]
  · by_cases hi : t = i <;>
      simp [Nat.testBit_and, Nat.testBit_two_pow, hb, hi]
    · subst hi; simp [hb]

theorem and_two_pow_ne_zero_iff (b t : Nat) :
    b &&& 2 ^ t ≠ 0 ↔ b.testBit t = true := by
  rw [and_two_pow_eq]
  by_cases hb : b.testBit t <;> simp [hb]

set_option maxRecDepth 4096 in
theorem lor_one_of_even_lt (x : Nat) (h : x < 256) (he : x % 2 = 0) :
    x ||| 1 = x + 1 := by
  have hall : ∀ y < 256, y % 2 = 0 → y ||| 1 = y + 1 := by decide
  exact hall x h he

/-- The `*_SCL_CLR` transmit sub-state that drives data bit `i`
(counting from the MSB, so `i = 0` is `DATA_7_SCL_CLR`). -/
def txClrState : Nat → StateTx
  | 0 => .DATA_7_SCL_CLR
  | 1 => .DATA_6_SCL_CLR
  | 2 => .DATA_5_SCL_CLR
  | 3 => .DATA_4_SCL_CLR
  | 4 => .DATA_3_SCL_CLR
  | 5 => .DATA_2_SCL_CLR
  | 6 => .DATA_1_SCL_CLR
  | _ => .DATA_0_SCL_CLR

theorem txMask_if (b t : Nat) :
    (if b &&& 2 ^ t = 0 then GpioOp.sdaClr else GpioOp.sdaSet) =
      (if b.testBit t then GpioOp.sdaSet else GpioOp.sdaClr) := by
  rw [and_two_pow_eq]
  by_cases hb : b.testBit t <;> simp [hb]

/-- C5: transmitting a byte drives, at each of the eight "clock low, set
data" steps, the SDA level equal to the corresponding bit of the byte,
most significant bit first; in particular transmitting `0xA5` drives the
SDA level sequence 1,0,1,0,0,1,0,1. -/
theorem c5_tx_sda_levels_msb_first :
    (∀ b i cs inp, i < 8 →
      (state_tx b (txClrState i) cs inp).ops =
        [.sclClr, if b.testBit (7 - i) then .sdaSet else .sdaClr]) ∧
    (List.range 8).map
        (fun i => (state_tx 0xA5 (txClrState i) false ⟨true, true⟩).ops) =
      [[.sclClr, .sdaSet], [.sclClr, .sdaClr], [.sclClr, .sdaSet],
       [.sclClr, .sdaClr], [.sclClr, .sdaClr], [.sclClr, .sdaSet],
       [.sclClr, .sdaClr], [.sclClr, .sdaSet]] := by
  constructor
  · intro b i cs inp hi
    interval_cases i
    · simp only [txClrState, state_tx, txDataMask, StateTx.val]
      norm_num [Nat.shiftRight_eq_div_pow]
      rw [show (128 : Nat) = 2 ^ 7 by norm_num]
      exact txMask_if b 7
    · simp only [txClrState, state_tx, txDataMask, StateTx.val]
      norm_num [Nat.shiftRight_eq_div_pow]
      rw [show (64 : Nat) = 2 ^ 6 by norm_num]
      exact txMask_if b 6
    · simp only [txClrState, state_tx, txDataMask, StateTx.val]
      norm_num [Nat.shiftRight_eq_div_pow]
      rw [show (32 : Nat) = 2 ^ 5 by norm_num]
      exact txMask_if b 5
    · simp only [txClrState, state_tx, txDataMask, StateTx.val]
      norm_num [Nat.shiftRight_eq_div_pow]
      rw [show (16 : Nat) = 2 ^ 4 by norm_num]
      exact txMask_if b 4
    · simp only [txClrState, state_tx, txDataMask, StateTx.val]
      norm_num [Nat.shiftRight_eq_div_pow]
      rw [show (8 : Nat) = 2 ^ 3 by norm_num]
      exact txMask_if b 3
    · simp only [txClrState, state_tx, txDataMask, StateTx.val]
      norm_num [Nat.shiftRight_eq_div_pow]
      rw [show (4 : Nat) = 2 ^ 2 by norm_num]
      exact txMask_if b 2
    · simp only [txClrState, state_tx, txDataMask, StateTx.val]
      norm_num [Nat.shiftRight_eq_div_pow]
      rw [show (2 : Nat) = 2 ^ 1 by norm_num]
      exact txMask_if b 1
    · simp only [txClrState, state_tx, txDataMask, StateTx.val]
      norm_num [Nat.shiftRight_eq_div_pow]
  · decide

/-- C6: the address phase transmits exactly one byte, namely the 7-bit
address shifted left by one with the least-significant bit 1 for a read
and 0 for a write; every `ADDRESS`-phase tick is one `state_tx` step on
that byte, and when the byte completes without error the machine leaves
the address phase for `DATA_RX` (read) or `DATA_TX` (write). -/
theorem c6_address_byte :
    (∀ m : Msg, m.addr < 128 →
      addressByte m = 2 * m.addr + (if m.read then 1 else 0)) ∧
    (∀ (inp : TickIn) (s : DrvState) (st : StateTx) (m : Msg),
      s.state_ = .ADDRESS → s.msg_ = some m → s.sub = .tx st →
      0 ≤ s.count_ →
      (tick inp s).2.1 =
          (state_tx (addressByte m) st s.clockStretchActive_ inp).ops ∧
      ((state_tx (addressByte m) st s.clockStretchActive_ inp).done = true →
       (state_tx (addressByte m) st s.clockStretchActive_ inp).err = false →
       (tick inp s).1.state_ =
         (if m.read then HState.DATA_RX else HState.DATA_TX))) := by
  constructor
  · intro m h
    have hsh : m.addr <<< 1 = 2 * m.addr := by
      rw [Nat.shiftLeft_eq]
      ring
    have hmod : (2 * m.addr) % 256 = 2 * m.addr := by omega
    rcases hr : m.read with _ | _
    · simp [addressByte, hr, hsh, hmod]
    · simp only [addressByte, hr, hsh, hmod, if_pos]
      exact lor_one_of_even_lt (2 * m.addr) (by omega) (by omega)
  · intro inp s st m hstate hmsg hsub hcnt
    obtain ⟨om, c, hs, sb, stp, cs⟩ := s
    simp only at hstate hmsg hsub hcnt
    subst hstate hmsg hsub
    rcases hr : state_tx (addressByte m) st cs inp with ⟨st', cs', ops', done', err'⟩
    cases done'
    · simp [tick, hr]
    · cases err'
      · have hc : ¬(c < 0) := by omega
        rcases hm : m.read with _ | _ <;>
          simp [tick, hr, hm, hc]
      · simp [tick, hr, eio]

/-- The receive sub-states that begin by checking that SCL has risen
(the eight data samples and the acknowledge-slot release). -/
def rxExpectsHigh (st : StateRx) : Bool :=
  match st with
  | .DATA_7_SCL_CLR | .DATA_6_SCL_CLR | .DATA_5_SCL_CLR | .DATA_4_SCL_CLR
  | .DATA_3_SCL_CLR | .DATA_2_SCL_CLR | .DATA_1_SCL_CLR | .DATA_0_SCL_CLR
  | .ACK_SCL_CLR => true
  | _ => false

/-- A driver state whose next tick expects SCL to have risen already
(and may therefore observe slave clock stretching). -/
def stretchStep (s : DrvState) : Prop :=
  s.msg_.isSome = true ∧
  (((s.state_ = .ADDRESS ∨ s.state_ = .DATA_TX) ∧
      s.sub = .tx .ACK_SCL_CLR) ∨
   (s.state_ = .DATA_RX ∧ ∃ st, s.sub = .rx st ∧ rxExpectsHigh st = true))

/-- A tick that lands on a stretch-sensitive step while SCL reads low
only records the stretch: no GPIO operation, no state advance, no exit,
no error. -/
theorem tick_stretch (inp : TickIn) (s : DrvState) (h : stretchStep s)
    (hscl : inp.scl = false) :
    tick inp s = ({s with clockStretchActive_ := true}, [], false) := by
  obtain ⟨om, c, hs, sb, stp, cs⟩ := s
  obtain ⟨hsome, hcase⟩ := h
  rcases hcase with ⟨hst, hsub⟩ | ⟨hst, st, hsub, hexp⟩
  · simp only at hsub
    subst hsub
    rcases om with _ | m
    · simp at hsome
    · rcases hst with hst | hst <;>
        · simp only at hst
          subst hst
          simp [tick, state_tx, hscl]
  · simp only at hst hsub
    subst hst hsub
    rcases om with _ | m
    · simp at hsome
    · cases st <;> simp [rxExpectsHigh] at hexp <;>
        simp [tick, state_rx, hscl]

/-- C7: whenever a tick lands on a step that expects SCL to already be
high and SCL reads low, the sub-state does not advance and the very same
step repeats on every further low tick; once SCL reads high, the step
repeats exactly once more (the post-stretch settle tick) before any SDA
sampling or driving; a stretch is never an error (no `err`, no exit). -/
theorem c7_clock_stretch_repeats :
    (∀ b cs inp, inp.scl = false →
      state_tx b .ACK_SCL_CLR cs inp =
        ⟨.ACK_SCL_CLR, true, [], false, false⟩) ∧
    (∀ b inp, inp.scl = true →
      state_tx b .ACK_SCL_CLR true inp =
        ⟨.ACK_SCL_CLR, false, [], false, false⟩) ∧
    (∀ nack st cs inp d, rxExpectsHigh st = true → inp.scl = false →
      state_rx nack st cs inp d = ⟨st, true, [], false, d, false⟩) ∧
    (∀ nack st inp d, rxExpectsHigh st = true → inp.scl = true →
      state_rx nack st true inp d = ⟨st, false, [], false, d, false⟩) ∧
    (∀ env n s, 1 ≤ n → (∀ k, k < n → (env k).scl = false) →
      stretchStep s →
      steps env n s = ({s with clockStretchActive_ := true}, [], false)) := by
  refine ⟨?_, ?_, ?_, ?_, ?_⟩
  · intro b cs inp h
    simp [state_tx, h]
  · intro b inp h
    simp [state_tx, h]
  · intro nack st cs inp d hexp h
    cases st <;> simp [rxExpectsHigh] at hexp <;> simp [state_rx, h]
  · intro nack st inp d hexp h
    cases st <;> simp [rxExpectsHigh] at hexp <;> simp [state_rx, h]
  · intro env n s hn hlow hstep
    induction n generalizing env s with
    | zero => omega
    | succ n ih =>
        rcases Nat.eq_zero_or_pos n with h0 | hpos
        · subst h0
          rw [steps_one, tick_stretch (env 0) s hstep (hlow 0 (by omega))]
        · have t := tick_stretch (env 0) s hstep (hlow 0 (by omega))
          have hstep' : stretchStep {s with clockStretchActive_ := true} := by
            obtain ⟨om, c, hs, sb, stp, cs⟩ := s
            simpa [stretchStep] using hstep
          have ihh := ih (shiftEnv env 1) {s with clockStretchActive_ := true}
            hpos (fun k hk => hlow (k + 1) (by omega)) hstep'
          have hcollapse :
              ({({s with clockStretchActive_ := true} : DrvState) with
                  clockStretchActive_ := true} : DrvState) =
                {s with clockStretchActive_ := true} := rfl
          rw [hcollapse] at ihh
          have := steps_cons t ihh
          simpa using this

/-- C2 (code bug): `transfer()` tests `msg_->len == 0` — the length of
the *previously installed* message — instead of the new message's
length.  Consequences at concrete inputs: (1) a zero-length message
presented while the previously completed message had length 1 is
*armed* (state changed, ticking to follow) instead of being rejected
with `-EINVAL`; (2) the very first `transfer()` after construction
dereferences the null `msg_`; (3) the armed zero-length transfer then
performs GPIO transitions (the start sequence within three ticks) and
(4) runs to completion returning `count_ = 1` for a 0-byte message. -/
theorem c2_zero_length_check_bug :
    transfer_arm ⟨80, false, [], 0⟩ true
        ⟨some ⟨80, false, [55], 1⟩, 1, .STOP, .stp .SDA_SET, false, false⟩ =
      .armed ⟨some ⟨80, false, [], 0⟩, 0, .START, .start .SDA_SET, true,
        false⟩ ∧
    transfer_arm ⟨80, false, [], 0⟩ true
        ⟨none, 0, .STOP, .stp .SDA_SET, false, false⟩ = .nullDeref ∧
    (steps (fun _ => ⟨true, false⟩) 3
        ⟨some ⟨80, false, [], 0⟩, 0, .START, .start .SDA_SET, true,
          false⟩).2.1 = startOps ∧
    (steps (fun _ => ⟨true, false⟩) 44
        ⟨some ⟨80, false, [], 0⟩, 0, .START, .start .SDA_SET, true,
          false⟩).1.count_ = 1 := by
  refine ⟨rfl, rfl, rfl, ?_⟩
  decide

def nackTick (inp : TickIn) (s : DrvState) : Prop :=
  (s.state_ = .ADDRESS ∨ s.state_ = .DATA_TX) ∧
  s.sub = .tx .ACK_SCL_CLR ∧ s.clockStretchActive_ = false ∧
  inp.scl = true ∧ inp.sda = true ∧ s.msg_.isSome = true

def GoodActive (s : DrvState) : Prop :=
  match s.msg_ with
  | none => False
  | some m =>
      1 ≤ m.len ∧ s.count_ ≤ (m.len : Int) ∧
      (s.count_ < 0 → s.count_ = -(eio : Int) ∧ s.state_ = .STOP) ∧
      (s.state_ = .START → s.count_ = 0) ∧
      (s.state_ = .ADDRESS → s.count_ = 0) ∧
      (s.state_ = .DATA_TX → 0 ≤ s.count_ ∧ s.count_ < (m.len : Int)) ∧
      (s.state_ = .DATA_RX → 0 ≤ s.count_ ∧ s.count_ < (m.len : Int))

def GoodCount (s : DrvState) : Prop :=
  match s.msg_ with
  | none => False
  | some m =>
      s.count_ ≤ (m.len : Int) ∧ (s.count_ < 0 → s.count_ = -(eio : Int))

def MasterPost (inp : TickIn) (s : DrvState) : Prop :=
  GoodCount (tick inp s).1 ∧
  ((tick inp s).2.2 = false → GoodActive (tick inp s).1) ∧
  ((tick inp s).1.count_ < 0 ↔ (s.count_ < 0 ∨ nackTick inp s))


theorem master_start (inp : TickIn) (m : Msg) (c : Int) (st : StateStart)
    (stp cs : Bool)
    (h : GoodActive ⟨some m, c, .START, .start st, stp, cs⟩) :
    MasterPost inp ⟨some m, c, .START, .start st, stp, cs⟩ := by
  simp only [GoodActive] at h
  obtain ⟨hlen, hle, himp, hc, -⟩ := h
  have hc0 : c = 0 := hc trivial
  subst hc0
  cases st <;>
    simp [MasterPost, tick, state_start, StateStart.inc, GoodActive,
      GoodCount, nackTick] <;> omega

theorem master_stop (inp : TickIn) (m : Msg) (c : Int) (st : StateStop)
    (stp cs : Bool)
    (h : GoodActive ⟨some m, c, .STOP, .stp st, stp, cs⟩) :
    MasterPost inp ⟨some m, c, .STOP, .stp st, stp, cs⟩ := by
  simp only [GoodActive] at h
  cases st <;>
    simp [MasterPost, tick, state_stop, StateStop.inc, GoodActive,
      GoodCount, nackTick] <;> omega


theorem master_addr (inp : TickIn) (m : Msg) (c : Int) (st : StateTx)
    (stp cs : Bool)
    (h : GoodActive ⟨some m, c, .ADDRESS, .tx st, stp, cs⟩) :
    MasterPost inp ⟨some m, c, .ADDRESS, .tx st, stp, cs⟩ := by
  simp only [GoodActive] at h
  obtain ⟨hlen, hle, himp, -, hc, -⟩ := h
  have hc0 : c = 0 := hc trivial
  subst hc0
  cases st <;>
    first
    | (simp [MasterPost, tick, state_tx, StateTx.inc, GoodActive,
        GoodCount, nackTick] <;> omega)
    | (obtain ⟨iscl, isda⟩ := inp
       cases iscl <;> cases cs <;> cases isda <;>
         simp [MasterPost, tick, state_tx, StateTx.inc, GoodActive,
           GoodCount, nackTick, eio] <;>
         first
         | omega
         | (rcases hr : m.read with _ | _ <;> simp [hr] <;> omega))


theorem master_dtx (inp : TickIn) (m : Msg) (c : Int) (st : StateTx)
    (stp cs : Bool)
    (h : GoodActive ⟨some m, c, .DATA_TX, .tx st, stp, cs⟩) :
    MasterPost inp ⟨some m, c, .DATA_TX, .tx st, stp, cs⟩ := by
  simp only [GoodActive] at h
  obtain ⟨hlen, hle, himp, -, -, hdt, -⟩ := h
  obtain ⟨hge0, hlt⟩ := hdt trivial
  have hcn : ¬(c < 0) := by omega
  cases st <;>
    first
    | (simp [MasterPost, tick, state_tx, StateTx.inc, GoodActive,
        GoodCount, nackTick] <;> omega)
    | (obtain ⟨iscl, isda⟩ := inp
       by_cases hge : c + 1 ≥ (m.len : Int) <;>
         cases iscl <;> cases cs <;> cases isda <;> cases stp <;>
           simp [MasterPost, tick, state_tx, StateTx.inc, GoodActive,
             GoodCount, nackTick, eio, hge, hcn] <;>
           omega)


theorem master_drx (inp : TickIn) (m : Msg) (c : Int) (st : StateRx)
    (stp cs : Bool)
    (h : GoodActive ⟨some m, c, .DATA_RX, .rx st, stp, cs⟩) :
    MasterPost inp ⟨some m, c, .DATA_RX, .rx st, stp, cs⟩ := by
  simp only [GoodActive] at h
  obtain ⟨hlen, hle, himp, -, -, -, hdr⟩ := h
  obtain ⟨hge0, hlt⟩ := hdr trivial
  have hcn : ¬(c < 0) := by omega
  obtain ⟨iscl, isda⟩ := inp
  cases st
  case DATA_7_SCL_SET =>
    simp [MasterPost, tick, state_rx, StateRx.inc, GoodActive, GoodCount,
      nackTick] <;> omega
  case DATA_6_SCL_SET =>
    simp [MasterPost, tick, state_rx, StateRx.inc, GoodActive, GoodCount,
      nackTick] <;> omega
  case DATA_5_SCL_SET =>
    simp [MasterPost, tick, state_rx, StateRx.inc, GoodActive, GoodCount,
      nackTick] <;> omega
  case DATA_4_SCL_SET =>
    simp [MasterPost, tick, state_rx, StateRx.inc, GoodActive, GoodCount,
      nackTick] <;> omega
  case DATA_3_SCL_SET =>
    simp [MasterPost, tick, state_rx, StateRx.inc, GoodActive, GoodCount,
      nackTick] <;> omega
  case DATA_2_SCL_SET =>
    simp [MasterPost, tick, state_rx, StateRx.inc, GoodActive, GoodCount,
      nackTick] <;> omega
  case DATA_1_SCL_SET =>
    simp [MasterPost, tick, state_rx, StateRx.inc, GoodActive, GoodCount,
      nackTick] <;> omega
  case DATA_0_SCL_SET =>
    simp [MasterPost, tick, state_rx, StateRx.inc, GoodActive, GoodCount,
      nackTick] <;> omega
  case ACK_SDA_SCL_SET =>
    simp [MasterPost, tick, state_rx, StateRx.inc, GoodActive, GoodCount,
      nackTick] <;> omega
  case DATA_7_SCL_CLR =>
    cases iscl <;> cases cs <;>
      simp [MasterPost, tick, state_rx, StateRx.inc, GoodActive, GoodCount,
        nackTick] <;> omega
  case DATA_6_SCL_CLR =>
    cases iscl <;> cases cs <;>
      simp [MasterPost, tick, state_rx, StateRx.inc, GoodActive, GoodCount,
        nackTick] <;> omega
  case DATA_5_SCL_CLR =>
    cases iscl <;> cases cs <;>
      simp [MasterPost, tick, state_rx, StateRx.inc, GoodActive, GoodCount,
        nackTick] <;> omega
  case DATA_4_SCL_CLR =>
    cases iscl <;> cases cs <;>
      simp [MasterPost, tick, state_rx, StateRx.inc, GoodActive, GoodCount,
        nackTick] <;> omega
  case DATA_3_SCL_CLR =>
    cases iscl <;> cases cs <;>
      simp [MasterPost, tick, state_rx, StateRx.inc, GoodActive, GoodCount,
        nackTick] <;> omega
  case DATA_2_SCL_CLR =>
    cases iscl <;> cases cs <;>
      simp [MasterPost, tick, state_rx, StateRx.inc, GoodActive, GoodCount,
        nackTick] <;> omega
  case DATA_1_SCL_CLR =>
    cases iscl <;> cases cs <;>
      simp [MasterPost, tick, state_rx, StateRx.inc, GoodActive, GoodCount,
        nackTick] <;> omega
  case DATA_0_SCL_CLR =>
    cases iscl <;> cases cs <;>
      simp [MasterPost, tick, state_rx, StateRx.inc, GoodActive, GoodCount,
        nackTick] <;> omega
  case ACK_SCL_CLR =>
    by_cases hge : c + 1 ≥ (m.len : Int) <;>
      cases iscl <;> cases cs <;> cases stp <;>
        simp [MasterPost, tick, state_rx, StateRx.inc, GoodActive,
          GoodCount, nackTick, eio, hge, hcn] <;>
        omega


theorem tick_master (inp : TickIn) (s : DrvState) (h : GoodActive s) :
    MasterPost inp s := by
  obtain ⟨om, c, hs, sb, stp, cs⟩ := s
  rcases om with _ | m
  · simp [GoodActive] at h
  cases hs with
  | START =>
      cases sb with
      | start st => exact master_start inp m c st stp cs h
      | stp st =>
          simp [GoodActive] at h
          simp [MasterPost, tick, GoodActive, GoodCount, nackTick]
          omega
      | tx st =>
          simp [GoodActive] at h
          simp [MasterPost, tick, GoodActive, GoodCount, nackTick]
          omega
      | rx st =>
          simp [GoodActive] at h
          simp [MasterPost, tick, GoodActive, GoodCount, nackTick]
          omega
  | ADDRESS =>
      cases sb with
      | tx st => exact master_addr inp m c st stp cs h
      | start st =>
          simp [GoodActive] at h
          simp [MasterPost, tick, GoodActive, GoodCount, nackTick]
          omega
      | stp st =>
          simp [GoodActive] at h
          simp [MasterPost, tick, GoodActive, GoodCount, nackTick]
          omega
      | rx st =>
          simp [GoodActive] at h
          simp [MasterPost, tick, GoodActive, GoodCount, nackTick]
          omega
  | DATA_TX =>
      cases sb with
      | tx st => exact master_dtx inp m c st stp cs h
      | start st =>
          simp [GoodActive] at h
          simp [MasterPost, tick, GoodActive, GoodCount, nackTick]
          omega
      | stp st =>
          simp [GoodActive] at h
          simp [MasterPost, tick, GoodActive, GoodCount, nackTick]
          omega
      | rx st =>
          simp [GoodActive] at h
          simp [MasterPost, tick, GoodActive, GoodCount, nackTick]
          omega
  | DATA_RX =>
      cases sb with
      | rx st => exact master_drx inp m c st stp cs h
      | start st =>
          simp [GoodActive] at h
          simp [MasterPost, tick, GoodActive, GoodCount, nackTick]
          omega
      | stp st =>
          simp [GoodActive] at h
          simp [MasterPost, tick, GoodActive, GoodCount, nackTick]
          omega
      | tx st =>
          simp [GoodActive] at h
          simp [MasterPost, tick, GoodActive, GoodCount, nackTick]
          omega
  | STOP =>
      cases sb with
      | stp st => exact master_stop inp m c st stp cs h
      | start st =>
          simp [GoodActive] at h
          simp [MasterPost, tick, GoodActive, GoodCount, nackTick]
          omega
      | tx st =>
          simp [GoodActive] at h
          simp [MasterPost, tick, GoodActive, GoodCount, nackTick]
          omega
      | rx st =>
          simp [GoodActive] at h
          simp [MasterPost, tick, GoodActive, GoodCount, nackTick]
          omega


theorem steps_master (env : Nat → TickIn) (m : Msg) (stop : Bool)
    (hlen : 1 ≤ m.len) (n : Nat) :
    GoodCount (steps env n (armedState m stop)).1 ∧
    ((steps env n (armedState m stop)).2.2 = false →
      GoodActive (steps env n (armedState m stop)).1) ∧
    ((steps env n (armedState m stop)).1.count_ < 0 ↔
      ∃ k, k < n ∧ (steps env k (armedState m stop)).2.2 = false ∧
        nackTick (env k) ((steps env k (armedState m stop)).1)) := by
  induction n with
  | zero =>
      refine ⟨?_, ?_, ?_⟩
      · simp [steps_zero, armedState, GoodCount] <;> omega
      · intro _
        simp [steps_zero, armedState, GoodActive] <;> omega
      · simp [steps_zero, armedState]
  | succ n ih =>
      obtain ⟨ihc, iha, ihiff⟩ := ih
      rw [steps_back env n]
      cases hex : (steps env n (armedState m stop)).2.2 with
      | true =>
          simp only [hex, if_true]
          refine ⟨ihc, fun hh => absurd hh (by simp [hex]), ?_⟩
          rw [ihiff]
          constructor
          · rintro ⟨k, hk, hkex, hkn⟩
            exact ⟨k, by omega, hkex, hkn⟩
          · rintro ⟨k, hk, hkex, hkn⟩
            rcases Nat.lt_succ_iff_lt_or_eq.mp hk with hlt | hkeq
            · exact ⟨k, hlt, hkex, hkn⟩
            · subst hkeq
              rw [hex] at hkex
              cases hkex
      | false =>
          have hA := iha hex
          obtain ⟨c1, c2, c3⟩ := tick_master (env n)
            (steps env n (armedState m stop)).1 hA
          simp only [hex, if_false, Bool.false_eq_true]
          refine ⟨c1, fun hh => c2 hh, ?_⟩
          rw [c3, ihiff]
          constructor
          · rintro (⟨k, hk, hkex, hkn⟩ | hn)
            · exact ⟨k, by omega, hkex, hkn⟩
            · exact ⟨n, by omega, hex, hn⟩
          · rintro ⟨k, hk, hkex, hkn⟩
            rcases Nat.lt_succ_iff_lt_or_eq.mp hk with hlt | hkeq
            · left
              exact ⟨k, hlt, hkex, hkn⟩
            · subst hkeq
              right
              exact hkn


/-! ### Claim theorems -/

/-- C3: along any armed transfer, the byte counter never exceeds the
installed message's length, and it is negative exactly when some earlier
executed tick observed a NACK in the acknowledge slot of a transmitted
byte (`nackTick`); no other event makes it negative. -/
theorem c3_count_invariant (m : Msg) (stop : Bool) (env : Nat → TickIn)
    (n : Nat) (hlen : 1 ≤ m.len) :
    (∀ m', (steps env n (armedState m stop)).1.msg_ = some m' →
      (steps env n (armedState m stop)).1.count_ ≤ (m'.len : Int)) ∧
    ((steps env n (armedState m stop)).1.count_ < 0 ↔
      ∃ k, k < n ∧ (steps env k (armedState m stop)).2.2 = false ∧
        nackTick (env k) ((steps env k (armedState m stop)).1)) := by
  obtain ⟨hc, -, hiff⟩ := steps_master env m stop hlen n
  refine ⟨?_, hiff⟩
  intro m' hm'
  unfold GoodCount at hc
  rw [hm'] at hc
  exact hc.1

/-- C10: the receive sub-machine never makes the byte counter negative:
in any non-exited reachable state of the `DATA_RX` phase the counter is
non-negative (so the receive-path error exit, guarded by `count_ < 0`,
is unreachable), and every negative counter a run can produce originates
in the acknowledge sample of a transmitted byte (a `nackTick`, whose
sub-state is `StateTx.ACK_SCL_CLR` in the `ADDRESS` or `DATA_TX`
phase). -/
theorem c10_rx_error_exit_unreachable (m : Msg) (stop : Bool)
    (env : Nat → TickIn) (n : Nat) (hlen : 1 ≤ m.len) :
    ((steps env n (armedState m stop)).2.2 = false →
      (steps env n (armedState m stop)).1.state_ = .DATA_RX →
      0 ≤ (steps env n (armedState m stop)).1.count_) ∧
    ((steps env n (armedState m stop)).1.count_ < 0 →
      ∃ k, k < n ∧ (steps env k (armedState m stop)).2.2 = false ∧
        nackTick (env k) ((steps env k (armedState m stop)).1)) := by
  obtain ⟨-, ha, hiff⟩ := steps_master env m stop hlen n
  constructor
  · intro hex hrx
    have hA := ha hex
    unfold GoodActive at hA
    rcases hmm : (steps env n (armedState m stop)).1.msg_ with _ | m2
    · rw [hmm] at hA
      exact absurd hA (by simp)
    · rw [hmm] at hA
      exact (hA.2.2.2.2.2.2 hrx).1
  · exact hiff.mp

/-- C4: a NACK in the address byte's acknowledge slot drives the full
stop sequence with no data byte clocked (the whole 25-tick trace is
exactly start, address byte, stop) and leaves `count_ = -EIO`, which is
what `transfer()` returns; a NACK in a `DATA_TX` data byte's acknowledge
slot aborts into the same stop sequence with `count_ = -EIO` as well. -/
theorem c4_nack_aborts_into_stop :
    (∀ (m : Msg) (stop : Bool) (env : Nat → TickIn),
      (∀ i, (env i).scl = true) → (env 21).sda = true →
      steps env 25 (armedState m stop) =
        (⟨some m, -(eio : Int), .STOP, .stp .SDA_SET, false, false⟩,
         startOps ++ (txByteOps (addressByte m) ++ stopOps), true)) ∧
    (∀ (m : Msg) (k : Nat) (stop : Bool) (env : Nat → TickIn),
      (∀ i, (env i).scl = true) → (env 18).sda = true →
      steps env 22 (dtxAt m k stop .DATA_7_SCL_CLR) =
        (⟨some m, -(eio : Int), .STOP, .stp .SDA_SET, false, false⟩,
         txByteOps (m.buf.getD k 0) ++ stopOps, true)) := by
  constructor
  · intro m stop env hscl hnack
    have h1 := start_run3 env m stop
    have h2 := addr_nack (shiftEnv env 3) m stop (hscl 21) hnack
    have h3 := stop_run3 (shiftEnv env 22) (some m) (-(eio : Int)) stop
    have h23 := steps_seq h2 h3
    have h := steps_seq h1 h23
    have e : 25 = 3 + (19 + 3) := by norm_num
    rw [e, h]
  · intro m k stop env hscl hnack
    have h1 := dtx_byte_nack env m k stop (hscl 18) hnack
    have h2 := stop_run3 (shiftEnv env 19) (some m) (-(eio : Int)) stop
    have h := steps_seq h1 h2
    have e : 22 = 19 + 3 := by norm_num
    rw [e, h]

/-- C1 -/
theorem c1_transfer_returns_length (m : Msg) (stop : Bool)
    (env : Nat → TickIn)
    (hlen : 1 ≤ m.len)
    (hbuf : m.read = true → m.len ≤ m.buf.length)
    (hscl : ∀ i, (env i).scl = true)
    (hack : if m.read then (env 21).sda = false
            else ∀ j, (env (21 + 19 * j)).sda = false) :
    ∃ s tr, steps env
        (22 + (if m.read then 18 else 19) * m.len +
          (if stop then 3 else 0)) (armedState m stop) = (s, tr, true) ∧
      s.count_ = (m.len : Int) := by
  rcases hr : m.read with _ | _
  · rw [hr] at hack
    simp only [Bool.false_eq_true, if_false] at hack ⊢
    cases stop
    · simp only [Bool.false_eq_true, if_false, Nat.add_zero]
      exact ⟨_, _, write_run_nostop env m hlen hr hscl hack, rfl⟩
    · simp only [if_true]
      have e : 22 + 19 * m.len + 3 = 25 + 19 * m.len := by ring
      rw [e]
      exact ⟨_, _, write_run_stop env m hlen hr hscl hack, rfl⟩
  · rw [hr] at hack hbuf
    simp only [if_true] at hack ⊢
    cases stop
    · simp only [Bool.false_eq_true, if_false, Nat.add_zero]
      exact ⟨_, _, read_run_nostop env m hlen hr (hbuf rfl) hscl hack, rfl⟩
    · simp only [if_true]
      have e : 22 + 18 * m.len + 3 = 25 + 18 * m.len := by ring
      rw [e]
      exact ⟨_, _, read_run_stop env m hlen hr (hbuf rfl) hscl hack, rfl⟩

/-! ### Assembled byte value and buffer characterisation -/

/-- Numeric value of one sampled bit. -/
def bitNat (b : Bool) : Nat := if b then 1 else 0

theorem shiftIn_eq (d : Nat) (b : Bool) :
    shiftIn d b = (2 * d) % 256 + bitNat b := by
  cases b
  · simp [shiftIn, bitNat, Nat.shiftLeft_eq, Nat.mul_comm]
  · simp only [shiftIn, bitNat, Nat.shiftLeft_eq, if_true]
    rw [show d * 2 ^ 1 = 2 * d by ring]
    exact lor_one_of_even_lt ((2 * d) % 256) (by omega) (by omega)

/-- The byte assembled from eight receive samples, most significant bit
first; the previous cell value `d0` is fully shifted out. -/
theorem rxSampledByte_eq (env : Nat → TickIn) (d0 : Nat) :
    rxSampledByte env d0 =
      128 * bitNat (env 1).sda + 64 * bitNat (env 3).sda +
      32 * bitNat (env 5).sda + 16 * bitNat (env 7).sda +
      8 * bitNat (env 9).sda + 4 * bitNat (env 11).sda +
      2 * bitNat (env 13).sda + bitNat (env 15).sda := by
  have hb : ∀ b : Bool, bitNat b ≤ 1 := by
    intro b
    cases b <;> simp [bitNat]
  have h1 := hb (env 1).sda
  have h3 := hb (env 3).sda
  have h5 := hb (env 5).sda
  have h7 := hb (env 7).sda
  have h9 := hb (env 9).sda
  have h11 := hb (env 11).sda
  have h13 := hb (env 13).sda
  have h15 := hb (env 15).sda
  simp only [rxSampledByte, shiftIn_eq]
  omega

theorem getD_set_ne (l : List Nat) (i j v : Nat) (h : i ≠ j) :
    (l.set i v).getD j 0 = l.getD j 0 := by
  simp [List.getD_eq_getElem?_getD, List.getElem?_set_ne h]

/-- Cells below the fill window are untouched. -/
theorem rxFill_getD_lt (env : Nat → TickIn) (k r : Nat) (buf : List Nat)
    (i : Nat) (hi : i < k) :
    (rxFill env k r buf).getD i 0 = buf.getD i 0 := by
  induction r generalizing env k buf with
  | zero => rfl
  | succ r ih =>
      rw [rxFill, ih (shiftEnv env 18) (k + 1) _ (by omega)]
      exact getD_set_ne _ _ _ _ (by omega)

/-- Each filled cell holds the byte sampled in its own 18-tick window. -/
theorem rxFill_getD (env : Nat → TickIn) (k r : Nat) (buf : List Nat)
    (j : Nat) (hj : j < r) (hlen : k + r ≤ buf.length) :
    (rxFill env k r buf).getD (k + j) 0 =
      rxSampledByte (shiftEnv env (18 * j)) (buf.getD (k + j) 0) := by
  induction r generalizing env k buf j with
  | zero => omega
  | succ r ih =>
      rcases Nat.eq_zero_or_pos j with h0 | hj0
      · subst h0
        simp only [Nat.add_zero, rxFill]
        rw [rxFill_getD_lt (shiftEnv env 18) (k + 1) r _ k (by omega)]
        have hk : k < buf.length := by omega
        rw [getD_set_self _ _ _ hk]
        have he : shiftEnv env (18 * 0) = env := by
          funext i
          simp [shiftEnv]
        rw [he]
      · obtain ⟨j', rfl⟩ : ∃ j', j = j' + 1 := ⟨j - 1, by omega⟩
        rw [rxFill]
        have e1 : k + (j' + 1) = (k + 1) + j' := by ring
        rw [e1, ih (shiftEnv env 18) (k + 1) _ j' (by omega)
          (by simp; omega)]
        rw [getD_set_ne _ _ _ _ (by omega)]
        have e2 : shiftEnv (shiftEnv env 18) (18 * j') =
            shiftEnv env (18 * (j' + 1)) := by
          funext i
          simp [shiftEnv]
          ring
        rw [e2]

/-- C8: an error-free read transfer of `n ≥ 1` bytes with a stop
requested ACKs (drives SDA low in the acknowledge slot of) each of the
first `n - 1` received bytes, NACKs (leaves SDA released in) the final
byte's slot, then executes the full stop sequence; each received byte is
assembled MSB-first from the sampled SDA levels.  The trace
`rxPhaseOps n` consists of `n - 1` copies of `rxByteOps false` (whose
acknowledge slot contains the master's `sdaClr`) followed by one
`rxByteOps true` (whose acknowledge slot does not). -/
theorem c8_read_ack_nack_stop (m : Msg) (env : Nat → TickIn)
    (hlen : 1 ≤ m.len) (hrd : m.read = true) (hbuf : m.len ≤ m.buf.length)
    (hscl : ∀ i, (env i).scl = true) (hack : (env 21).sda = false) :
    steps env (25 + 18 * m.len) (armedState m true) =
      (⟨some {m with buf := rxFill (shiftEnv env 22) 0 m.len m.buf},
        (m.len : Int), .STOP, .stp .SDA_SET, false, false⟩,
       startOps ++ (txByteOps (addressByte m) ++
         (rxPhaseOps m.len ++ stopOps)), true) ∧
    (∀ r, 2 ≤ r → rxPhaseOps r = rxByteOps false ++ rxPhaseOps (r - 1)) ∧
    rxByteOps false =
      rxRun15Ops ++ ([.sclClr, .sdaClr] ++ [.sclSet, .sclClr, .sdaSet]) ∧
    rxByteOps true =
      rxRun15Ops ++ ([.sclClr] ++ [.sclSet, .sclClr, .sdaSet]) ∧
    (∀ j, j < m.len →
      (rxFill (shiftEnv env 22) 0 m.len m.buf).getD j 0 =
        rxSampledByte (shiftEnv env (22 + 18 * j)) (m.buf.getD j 0)) ∧
    (∀ (e : Nat → TickIn) (d0 : Nat), rxSampledByte e d0 =
      128 * bitNat (e 1).sda + 64 * bitNat (e 3).sda +
      32 * bitNat (e 5).sda + 16 * bitNat (e 7).sda +
      8 * bitNat (e 9).sda + 4 * bitNat (e 11).sda +
      2 * bitNat (e 13).sda + bitNat (e 15).sda) := by
  refine ⟨read_run_stop env m hlen hrd hbuf hscl hack, ?_, by decide,
    by decide, ?_, rxSampledByte_eq⟩
  · intro r hr
    obtain ⟨r'', rfl⟩ : ∃ r'', r = r'' + 2 := ⟨r - 2, by omega⟩
    simp [rxPhaseOps]
  · intro j hj
    have h := rxFill_getD (shiftEnv env 22) 0 m.len m.buf j hj (by omega)
    simp only [Nat.zero_add] at h
    rw [h]
    have e : shiftEnv (shiftEnv env 22) (18 * j) =
        shiftEnv env (22 + 18 * j) := by
      funext i
      simp [shiftEnv]
      ring
    rw [e]

/-! ### System model: ticking, arming, completion (C9) -/

/-- System state: the driver plus whether the periodic tick is enabled,
whether a `transfer()` is armed and not yet signalled complete, and
whether the initial power-on stop sequence is still pending. -/
structure SysState where
  drv : DrvState
  ticking : Bool
  inTransfer : Bool
  initPending : Bool
deriving DecidableEq, Repr

/-- State right after construction.  The constructor installs
`msg_ = nullptr`, `count_ = 0`, `state_ = STOP`, `stateStop_ = SDA_CLR`,
`stop_ = true`, `clockStretchActive_ = false`; per the class doc comment
("The tick should be enabled to start") the periodic tick is already
enabled while no transfer is armed, so that the initial stop sequence
can run. -/
def sysInit : SysState :=
  ⟨⟨none, 0, .STOP, .stp .SDA_CLR, true, false⟩, true, false, true⟩

/-- System events: a periodic tick (only possible while ticking is
enabled), or a task calling `transfer()` (only possible once the wait
loop has been passed, i.e. `stop_` is false, and no other transfer is in
flight). -/
inductive SysEv where
  | tickEv (inp : TickIn)
  | armEv (m : Msg) (stop : Bool)

/-- One system step.  `none` means the event cannot occur (tick while
disabled; arm while blocked) or is undefined behaviour (the null
`msg_` dereference of `transfer_arm`).  A tick that takes the exit path
embeds `disableTick_()` and the completion signal; a successful arm
embeds `enableTick_()`. -/
def sysStep : SysEv → SysState → Option SysState
  | .tickEv inp, s =>
      if s.ticking then
        let t := tick inp s.drv
        some ⟨t.1, if t.2.2 then false else s.ticking,
              if t.2.2 then false else s.inTransfer,
              if t.2.2 then false else s.initPending⟩
      else none
  | .armEv m stop, s =>
      if s.drv.stop_ then none
      else if s.inTransfer then none
      else
        match transfer_arm m stop s.drv with
        | .nullDeref => none
        | .inval => some s
        | .armed d => some ⟨d, true, true, s.initPending⟩

/-- States reachable from construction. -/
inductive Reach : SysState → Prop
  | init : Reach sysInit
  | step (e : SysEv) (s s' : SysState) :
      Reach s → sysStep e s = some s' → Reach s'

/-- C9, counterexample: immediately after construction — a reachable
state — ticking is enabled although no transfer is in progress, and a
tick actually fires there (running the initial stop sequence), so
"ticking is enabled iff a transfer is in progress, including at and
after construction" is false on the code. -/
theorem c9_counterexample_init_ticks_without_transfer :
    Reach sysInit ∧ sysInit.ticking = true ∧ sysInit.inTransfer = false ∧
    (sysStep (.tickEv ⟨true, true⟩) sysInit).isSome = true :=
  ⟨Reach.init, rfl, rfl, rfl⟩

/-- C9, amended: in every reachable system state, ticking is enabled iff
a transfer is in progress or the initial power-on stop sequence is still
pending; `enable_ticks` is invoked exactly when `transfer()` arms a
message, and `disable_ticks` exactly at terminal completion (including
the completion of the initial stop sequence). -/
theorem c9_ticking_iff_transfer_or_init_stop (s : SysState)
    (h : Reach s) :
    s.ticking = (s.inTransfer || s.initPending) := by
  induction h with
  | init => rfl
  | step e s s' hr hstep ih =>
      cases e with
      | tickEv inp =>
          simp only [sysStep] at hstep
          by_cases ht : s.ticking
          · rw [if_pos ht] at hstep
            injection hstep with hstep
            subst hstep
            by_cases hex : (tick inp s.drv).2.2 <;> simp [hex, ih]
          · rw [if_neg ht] at hstep
            cases hstep
      | armEv m stop =>
          simp only [sysStep] at hstep
          by_cases h1 : s.drv.stop_
          · rw [if_pos h1] at hstep
            cases hstep
          · rw [if_neg h1] at hstep
            by_cases h2 : s.inTransfer
            · rw [if_pos h2] at hstep
              cases hstep
            · rw [if_neg h2] at hstep
              rcases harm : transfer_arm m stop s.drv with _ | _ | d <;>
                rw [harm] at hstep
              · cases hstep
              · injection hstep with hstep
                subst hstep
                exact ih
              · injection hstep with hstep
                subst hstep
                rfl

/-! ### Witnesses -/

/-- C1 witness: a one-byte write transfer with stop, all-ACK
environment, exits with `count_ = 1`. -/
theorem c1_transfer_returns_length_witness :
    ∃ s tr, steps (fun _ => ⟨true, false⟩) 44
        (armedState ⟨80, false, [165], 1⟩ true) = (s, tr, true) ∧
      s.count_ = ((1 : Nat) : Int) :=
  c1_transfer_returns_length ⟨80, false, [165], 1⟩ true
    (fun _ => ⟨true, false⟩) (by decide) (fun _ => by decide)
    (fun i => rfl) (fun j => rfl)

/-- Concrete environment for witnesses: SCL always high, SDA always low
(every sampled acknowledge slot reads ACK). -/
def envAllAck : Nat → TickIn := fun _ => ⟨true, false⟩

/-- Concrete one-byte write message for witnesses. -/
def msgW1 : Msg := ⟨80, false, [165], 1⟩

/-- C3 witness: the counter invariant instantiated on a 5-tick prefix of
a one-byte write transfer. -/
theorem c3_count_invariant_witness :
    (∀ m', (steps envAllAck 5 (armedState msgW1 true)).1.msg_ = some m' →
      (steps envAllAck 5 (armedState msgW1 true)).1.count_ ≤
        (m'.len : Int)) ∧
    ((steps envAllAck 5 (armedState msgW1 true)).1.count_ < 0 ↔
      ∃ k, k < 5 ∧ (steps envAllAck k (armedState msgW1 true)).2.2 = false ∧
        nackTick (envAllAck k) ((steps envAllAck k
          (armedState msgW1 true)).1)) :=
  c3_count_invariant msgW1 true envAllAck 5 (by decide)

/-- C4 witness: the address byte of a concrete transfer is NACKed at
tick 21 and the run aborts through the stop sequence with
`count_ = -EIO`. -/
theorem c4_nack_aborts_into_stop_witness :
    steps (fun n => ⟨true, n == 21⟩) 25 (armedState msgW1 true) =
      (⟨some msgW1, -(eio : Int), .STOP, .stp .SDA_SET, false, false⟩,
       startOps ++ (txByteOps (addressByte msgW1) ++ stopOps), true) :=
  c4_nack_aborts_into_stop.1 msgW1 true (fun n => ⟨true, n == 21⟩)
    (fun i => rfl) (by decide)

/-- C5 witness: bit 2 (mask `0x20`) of `0xA5`. -/
theorem c5_tx_sda_levels_msb_first_witness :
    (state_tx 0xA5 (txClrState 2) false ⟨true, true⟩).ops =
      [.sclClr, if (0xA5 : Nat).testBit 5 then GpioOp.sdaSet
                else GpioOp.sdaClr] :=
  c5_tx_sda_levels_msb_first.1 0xA5 2 false ⟨true, true⟩ (by decide)

/-- C6 witness: the address byte of a concrete read message, and the
`ADDRESS`-phase tick at its acknowledge sample. -/
theorem c6_address_byte_witness :
    addressByte ⟨80, true, [], 1⟩ = 2 * 80 + 1 ∧
    (tick ⟨true, false⟩
        ⟨some ⟨80, true, [], 1⟩, 0, .ADDRESS, .tx .ACK_SCL_CLR, true,
          false⟩).2.1 =
      (state_tx (addressByte ⟨80, true, [], 1⟩) .ACK_SCL_CLR false
        ⟨true, false⟩).ops :=
  ⟨c6_address_byte.1 ⟨80, true, [], 1⟩ (by decide),
   (c6_address_byte.2 ⟨true, false⟩
      ⟨some ⟨80, true, [], 1⟩, 0, .ADDRESS, .tx .ACK_SCL_CLR, true, false⟩
      .ACK_SCL_CLR ⟨80, true, [], 1⟩ rfl rfl rfl (by decide)).1⟩

/-- C7 witness: a stretched transmit acknowledge sample, and a two-tick
all-low run that leaves the state unchanged apart from the stretch
flag. -/
theorem c7_clock_stretch_repeats_witness :
    state_tx 0xA5 .ACK_SCL_CLR false ⟨false, true⟩ =
      ⟨.ACK_SCL_CLR, true, [], false, false⟩ ∧
    steps (fun _ => ⟨false, false⟩) 2 (dtxAt msgW1 0 true .ACK_SCL_CLR) =
      ({dtxAt msgW1 0 true .ACK_SCL_CLR with clockStretchActive_ := true},
       [], false) :=
  ⟨c7_clock_stretch_repeats.1 0xA5 false ⟨false, true⟩ rfl,
   c7_clock_stretch_repeats.2.2.2.2 (fun _ => ⟨false, false⟩) 2
     (dtxAt msgW1 0 true .ACK_SCL_CLR) (by decide) (fun k hk => rfl)
     ⟨rfl, Or.inl ⟨Or.inr rfl, rfl⟩⟩⟩

/-- C8 witness: a 3-byte read transfer with stop in the all-ACK,
all-zero-data environment. -/
theorem c8_read_ack_nack_stop_witness :
    steps envAllAck (25 + 18 * 3)
        (armedState ⟨80, true, [7, 7, 7], 3⟩ true) =
      (⟨some {(⟨80, true, [7, 7, 7], 3⟩ : Msg) with
          buf := rxFill (shiftEnv envAllAck 22) 0 3 [7, 7, 7]},
        ((3 : Nat) : Int), .STOP, .stp .SDA_SET, false, false⟩,
       startOps ++ (txByteOps (addressByte ⟨80, true, [7, 7, 7], 3⟩) ++
         (rxPhaseOps 3 ++ stopOps)), true) :=
  (c8_read_ack_nack_stop ⟨80, true, [7, 7, 7], 3⟩ envAllAck (by decide)
    rfl (by decide) (fun i => rfl) rfl).1

/-- C9 witness: the amended invariant at the construction state. -/
theorem c9_ticking_iff_transfer_or_init_stop_witness :
    sysInit.ticking = (sysInit.inTransfer || sysInit.initPending) :=
  c9_ticking_iff_transfer_or_init_stop sysInit Reach.init

/-- C10 witness: the receive-error-exit fact instantiated on a 4-tick
prefix of a one-byte write transfer. -/
theorem c10_rx_error_exit_unreachable_witness :
    ((steps envAllAck 4 (armedState msgW1 true)).2.2 = false →
      (steps envAllAck 4 (armedState msgW1 true)).1.state_ = .DATA_RX →
      0 ≤ (steps envAllAck 4 (armedState msgW1 true)).1.count_) ∧
    ((steps envAllAck 4 (armedState msgW1 true)).1.count_ < 0 →
      ∃ k, k < 4 ∧ (steps envAllAck k (armedState msgW1 true)).2.2 = false ∧
        nackTick (envAllAck k) ((steps envAllAck k
          (armedState msgW1 true)).1)) :=
  c10_rx_error_exit_unreachable msgW1 true envAllAck 4 (by decide)

end BitBang
